import Mathlib

/-!
# Verification of the Figma-to-Code Enterprise Generation Pipeline

A shallow embedding, in Lean 4, of the parts of the
`component-design-compass` repository that the specification's testable
properties talk about:

* the per-framework code generators (`ReactGenerator`, the legacy
  `EnterpriseCodeGenerator`, the `FrameworkGeneratorFactory`);
* the shared component-name sanitization;
* the optimization passes of `PerformanceOptimizer` / `OptimizationEngine`
  (deduplication, bundle-size optimization, image rewriting);
* the `ComponentLibraryManager` reusability extraction;
* the two `analyzeQuality` implementations;
* the `GenerationOrchestrator` failure containment with
  `ErrorHandler.createFallbackResult`;
* the `CSSArchitectManager` responsive-style emission.

JavaScript strings are modelled by Lean `String`/`List Char`.  `charCodeAt`
iteration is modelled on UTF-16 code units, `Blob` sizes on UTF-8 byte
counts, 32-bit integer wrap-around (`hash = hash & hash`) by an explicit
`toInt32`, and every call to `Date.now()` by an explicit `now : Nat`
parameter threaded to exactly the places where the source reads the clock.
Regular-expression search/replace from the source is modelled by
deterministic left-to-right scanners that implement the semantics of the
concrete patterns that appear in the source.
-/

namespace Compass

/-! ## JavaScript string and number primitives -/

/-- UTF-16 code units of one character, as produced by
`String.prototype.charCodeAt` (astral characters yield a surrogate pair). -/
def utf16Units (c : Char) : List Nat :=
  if c.val.toNat < 0x10000 then [c.val.toNat]
  else
    let v := c.val.toNat - 0x10000
    [0xD800 + v / 0x400, 0xDC00 + v % 0x400]

/-- All UTF-16 code units of a string, in order. -/
def utf16Codes (s : String) : List Nat :=
  s.data.flatMap utf16Units

/-- Number of UTF-8 bytes of one character (what `new Blob([s]).size`
counts per character). -/
def utf8Size (c : Char) : Nat :=
  if c.val.toNat < 0x80 then 1
  else if c.val.toNat < 0x800 then 2
  else if c.val.toNat < 0x10000 then 3
  else 4

/-- `new Blob([s]).size`: the UTF-8 byte length of a string. -/
def blobSize (s : String) : Nat :=
  s.data.foldl (fun n c => n + utf8Size c) 0

/-- JavaScript `ToInt32`: wrap an integer into `[-2^31, 2^31)`. -/
def toInt32 (n : Int) : Int :=
  (n + 2 ^ 31) % 2 ^ 32 - 2 ^ 31

/-- One step of the rolling hash `hash = ((hash << 5) - hash) + char;
hash = hash & hash`.  `hash << 5` operates on 32-bit integers, hence the
inner `toInt32`; `& hash` converts the exact sum back to 32 bits. -/
def hashStep (hash : Int) (code : Nat) : Int :=
  toInt32 (toInt32 (hash * 32) - hash + code)

/-- The rolling hash over all UTF-16 code units of a string, starting
from `0` (shared verbatim by `PerformanceOptimizer.simpleHash`,
`OptimizationEngine.generateComponentHash` and
`ComponentLibraryManager.hashString`). -/
def jsHash (s : String) : Int :=
  (utf16Codes s).foldl hashStep 0

/-- The base-36 digit characters `0-9a-z`. -/
def base36Digit (d : Nat) : Char :=
  if d < 10 then Char.ofNat (48 + d) else Char.ofNat (87 + d)

/-- Base-36 digits of a natural number, most significant first; `fuel`
only drives the recursion (the value strictly shrinks at every step, so
`fuel = n + 1` always suffices). -/
def natToBase36Aux : Nat → Nat → List Char
  | 0, _ => []
  | f + 1, n =>
    if n < 36 then [base36Digit n]
    else natToBase36Aux f (n / 36) ++ [base36Digit (n % 36)]
  -- the value strictly shrinks (`n / 36 < n`), so `n < fuel` is preserved

/-- `Number.prototype.toString(36)` for non-negative integer values. -/
def natToBase36 (n : Nat) : String :=
  String.mk (natToBase36Aux (n + 1) n)

/-- `Number.prototype.toString(36)` on an integer value: a leading `-`
for negative values, then the base-36 digits of the absolute value. -/
def intToBase36 (n : Int) : String :=
  if n < 0 then "-" ++ natToBase36 n.natAbs else natToBase36 n.natAbs

/-- `hash.toString(36)` applied to the rolling hash of a string. -/
def jsHashString (s : String) : String :=
  intToBase36 (jsHash s)

/-- Boolean infix test on lists (the semantics of
`String.prototype.includes`). -/
def listInfix (pat l : List Char) : Bool :=
  pat.isPrefixOf l ||
    match l with
    | [] => false
    | _ :: rest => listInfix pat rest

/-- `haystack.includes(needle)` on strings. -/
def jsIncludes (haystack needle : String) : Bool :=
  listInfix needle.data haystack.data

/-- `String.prototype.toLowerCase`, ASCII model (the generators only
lower-case layer and component names). -/
def jsToLowerString (s : String) : String :=
  String.mk (s.data.map Char.toLower)

/-- `Array.prototype.join(sep)`. -/
def joinSep (sep : String) : List String → String
  | [] => ""
  | [x] => x
  | x :: xs => x ++ sep ++ joinSep sep xs

/-! ## The shared name sanitization (claim C2)

```js
private sanitizeComponentName(name: string): string {
  return name
    .replace(/[^a-zA-Z0-9]/g, '')
    .replace(/^[0-9]/, 'Component$&')
    .replace(/^./, str => str.toUpperCase()) || 'Component';
}
```
appearing verbatim in `EnterpriseCodeGenerator`, `ReactGenerator`,
`SvelteGenerator` (and the other framework strategies). -/

/-- The character class `[a-zA-Z0-9]` (ASCII alphanumeric), stated on
code points. -/
def isAsciiAlnum (c : Char) : Bool :=
  (97 ≤ c.toNat && c.toNat ≤ 122) || (65 ≤ c.toNat && c.toNat ≤ 90) ||
    (48 ≤ c.toNat && c.toNat ≤ 57)

/-- The character class `[0-9]`. -/
def isAsciiDigit (c : Char) : Bool :=
  48 ≤ c.toNat && c.toNat ≤ 57

/-- `String.prototype.toUpperCase` restricted to one character; the
sanitizer only ever applies it to ASCII alphanumerics, where it agrees
with `Char.toUpper`. -/
def jsToUpper (c : Char) : Char := c.toUpper

/-- `.replace(/^[0-9]/, 'Component$&')`: a leading digit is replaced by
`Component` followed by that digit, i.e. `Component` is prepended. -/
def prefixLeadingDigit (s1 : List Char) : List Char :=
  match s1 with
  | c :: _ => if isAsciiDigit c then "Component".data ++ s1 else s1
  | [] => s1

/-- `.replace(/^./, str => str.toUpperCase())`: upper-case the first
character (no-op on the empty string, since `.` must match). -/
def upperFirst : List Char → List Char
  | c :: rest => jsToUpper c :: rest
  | [] => []

/-- `sanitizeComponentName` on the underlying character list:
strip `[^a-zA-Z0-9]`, prepend `Component` in front of a leading digit,
upper-case the first character, and fall back to `"Component"` when the
chain produced the empty (falsy) string. -/
def sanitizeChars (l : List Char) : List Char :=
  let s3 := upperFirst (prefixLeadingDigit (l.filter isAsciiAlnum))
  if s3.isEmpty then "Component".data else s3

/-- The shared `sanitizeComponentName`. -/
def sanitizeComponentName (name : String) : String :=
  String.mk (sanitizeChars name.data)

/-- `ReactGenerator.sanitizeComponentName` (identical source text). -/
def ReactGenerator.sanitizeComponentName (name : String) : String :=
  Compass.sanitizeComponentName name

/-- `EnterpriseCodeGenerator.sanitizeComponentName` (identical source
text). -/
def EnterpriseCodeGenerator.sanitizeComponentName (name : String) : String :=
  Compass.sanitizeComponentName name

/-! ## More JavaScript string primitives: regex scanners

Every global regex replace in the source uses a concrete pattern; each is
modelled by a deterministic left-to-right scanner with the exact
match/advance behaviour of the JavaScript engine on that pattern
(leftmost match, advance one character on failure, continue after the
matched text on success). -/

/-- The JavaScript `\s` character class. -/
def jsIsSpace (c : Char) : Bool :=
  c = ' ' || c = '\t' || c = '\n' || c = '\r' ||
  c.toNat = 0x0b || c.toNat = 0x0c || c.toNat = 0xa0 || c.toNat = 0x1680 ||
  (0x2000 ≤ c.toNat && c.toNat ≤ 0x200a) ||
  c.toNat = 0x2028 || c.toNat = 0x2029 || c.toNat = 0x202f ||
  c.toNat = 0x205f || c.toNat = 0x3000 || c.toNat = 0xfeff

/-- `.replace(/\s+/g, repl)`: each maximal whitespace run becomes one
copy of `repl`.  The `inRun` flag records whether the previous character
was part of a run already replaced. -/
def collapseWsAux (repl : List Char) : List Char → Bool → List Char
  | [], _ => []
  | c :: rest, inRun =>
    if jsIsSpace c then
      (if inRun then [] else repl) ++ collapseWsAux repl rest true
    else
      c :: collapseWsAux repl rest false

/-- `s.replace(/\s+/g, repl)` on strings. -/
def jsReplaceWs (repl : String) (s : String) : String :=
  String.mk (collapseWsAux repl.data s.data false)

/-- `String.prototype.trim()` (both ends, JavaScript whitespace). -/
def jsTrim (s : String) : String :=
  String.mk (((s.data.dropWhile jsIsSpace).reverse.dropWhile jsIsSpace).reverse)

/-- Generic global-replace driver: `tryMatch` returns
`some (replacement, remainder)` when a match starts at the head of the
list (every pattern in the source consumes at least one character, so
`fuel = length + 1` always suffices and the fuel-out branch is dead). -/
def replaceAllAux (tryMatch : List Char → Option (List Char × List Char)) :
    Nat → List Char → List Char
  | 0, l => l
  | _ + 1, [] => []
  | f + 1, c :: rest =>
    match tryMatch (c :: rest) with
    | some (repl, after) => repl ++ replaceAllAux tryMatch f after
    | none => c :: replaceAllAux tryMatch f rest

/-- Global replace on strings via `replaceAllAux`. -/
def jsReplaceAll (tryMatch : List Char → Option (List Char × List Char))
    (s : String) : String :=
  String.mk (replaceAllAux tryMatch (s.data.length + 1) s.data)

/-- Matcher for `/className="[^"]*"/g` with a fixed replacement. -/
def matchClassNameAttr (repl : List Char) (l : List Char) :
    Option (List Char × List Char) :=
  if "className=\"".data.isPrefixOf l then
    let afterLit := l.drop 11
    let rest' := afterLit.dropWhile (· ≠ '"')
    match rest' with
    | '"' :: after => some (repl, after)
    | _ => none
  else none

/-- Matcher for `/\{[^}]*\}/g` with a fixed replacement. -/
def matchBraceBlock (repl : List Char) (l : List Char) :
    Option (List Char × List Char) :=
  match l with
  | '{' :: rest =>
    let rest' := rest.dropWhile (· ≠ '}')
    match rest' with
    | '}' :: after => some (repl, after)
    | _ => none
  | _ => none

/-- The character class `[a-fA-F0-9]`. -/
def isHexDigit (c : Char) : Bool :=
  (48 ≤ c.toNat && c.toNat ≤ 57) || (97 ≤ c.toNat && c.toNat ≤ 102) ||
    (65 ≤ c.toNat && c.toNat ≤ 70)

/-- Matcher for `/#[a-fA-F0-9]{6}/g` with a fixed replacement. -/
def matchHex6 (repl : List Char) (l : List Char) :
    Option (List Char × List Char) :=
  match l with
  | '#' :: rest =>
    if (rest.take 6).length = 6 && (rest.take 6).all isHexDigit then
      some (repl, rest.drop 6)
    else none
  | _ => none

/-- Matcher for `/\d+px/g` with a fixed replacement.  The digit run is
maximal; a shorter run cannot rescue a failed `px` (the next character
after a shorter run is another digit), so no backtracking is needed. -/
def matchDigitsPx (repl : List Char) (l : List Char) :
    Option (List Char × List Char) :=
  match l with
  | c :: _ =>
    if isAsciiDigit c then
      let rest' := l.dropWhile isAsciiDigit
      if "px".data.isPrefixOf rest' then some (repl, rest'.drop 2)
      else none
    else none
  | [] => none

/-- Matcher for the `new RegExp(escaped pattern)` used by
`removeRedundantFromCSS`/`replaceWithUtilities`:
`\{\s*STYLE\s*\}` for a literal, trimmed, non-empty `STYLE`.  The
leading `\s*` is maximal and cannot overlap `STYLE` (whose first
character is not whitespace), so the scan is deterministic. -/
def matchBraceStyle (style repl : List Char) (l : List Char) :
    Option (List Char × List Char) :=
  match l with
  | '{' :: rest =>
    let afterWs := rest.dropWhile jsIsSpace
    if style.isPrefixOf afterWs then
      let afterStyle := (afterWs.drop style.length).dropWhile jsIsSpace
      match afterStyle with
      | '}' :: after => some (repl, after)
      | _ => none
    else none
  | _ => none

/-- Search step for `/<img([^>]*?)src="([^"]+)"([^>]*?)>/g` after the
literal `<img`: walk group 1 (lazy, no `>`), find `src="`, then the URL
(`[^"]+`, which cannot cross a quote), then group 3 up to the closing
`>`.  As argued in the comments, failed alternatives cannot be rescued
by regex backtracking, so a single left-to-right pass is exact. -/
def imgSearchSrc (g1acc : List Char) :
    List Char → Option (List Char × List Char × List Char × List Char)
  | [] => none
  | c :: rest =>
    if "src=\"".data.isPrefixOf (c :: rest) then
      let afterSrc := (c :: rest).drop 5
      let url := afterSrc.takeWhile (· ≠ '"')
      let r2 := afterSrc.dropWhile (· ≠ '"')
      if url.isEmpty then
        -- `src=""`: group 2 needs at least one character; group 1 may
        -- extend over this occurrence and a later `src="` may match
        imgSearchSrc (g1acc ++ [c]) rest
      else
        match r2 with
        | '"' :: r3 =>
          match r3.dropWhile (· ≠ '>') with
          | '>' :: after => some (g1acc, url, r3.takeWhile (· ≠ '>'), after)
          | _ =>
            -- no `>` after the quoted URL anywhere: every later
            -- alternative would need one too, so the match fails
            none
        | _ =>
          -- no closing quote anywhere: no later `src="` can exist either
          none
    else if c = '>' then
      -- group 1 is `[^>]*?`: a `>` before `src="` kills the match
      none
    else
      imgSearchSrc (g1acc ++ [c]) rest

/-- Matcher for `/<img([^>]*?)src="([^"]+)"([^>]*?)>/g` with the
replacement `'<img$1src="$2" loading="lazy" decoding="async"$3>'`. -/
def matchImgTag (l : List Char) : Option (List Char × List Char) :=
  if "<img".data.isPrefixOf l then
    match imgSearchSrc [] (l.drop 4) with
    | some (g1, url, g3, after) =>
      some ("<img".data ++ g1 ++ "src=\"".data ++ url ++
        "\" loading=\"lazy\" decoding=\"async\"".data ++ g3 ++ ['>'], after)
    | none => none
  else none

/-- Matcher for `/width="(\d+)" height="(\d+)"/g` with the replacement
`'width="$1" height="$2" style="aspect-ratio: $1/$2"'`. -/
def matchWidthHeight (l : List Char) : Option (List Char × List Char) :=
  if "width=\"".data.isPrefixOf l then
    let afterW := l.drop 7
    let wDigits := afterW.takeWhile isAsciiDigit
    if wDigits.isEmpty then none
    else
      let restW := afterW.drop wDigits.length
      if "\" height=\"".data.isPrefixOf restW then
        let afterH := restW.drop 10
        let hDigits := afterH.takeWhile isAsciiDigit
        if hDigits.isEmpty then none
        else
          match afterH.drop hDigits.length with
          | '"' :: after =>
            some ("width=\"".data ++ wDigits ++ "\" height=\"".data ++
              hDigits ++ "\" style=\"aspect-ratio: ".data ++ wDigits ++
              ['/'] ++ hDigits ++ ['"'], after)
          | _ => none
      else none
  else none

/-- `true` iff the string contains `'@' :: kw` as a substring; since the
query keywords all start with `@`, this is exactly
`s.includes("@" + kw)`. -/
def hasAtKeyword (kw : List Char) : List Char → Bool
  | [] => false
  | c :: rest => (c = '@' && kw.isPrefixOf rest) || hasAtKeyword kw rest

/-! ## JavaScript numbers

Figma numeric fields (pixel sizes, 0–1 color channels) are modelled as
rationals; `Math.round` is floor-of-plus-half (the JavaScript rounding
mode), and template-literal interpolation of a number uses a terminating
decimal printer (all numbers the pipeline prints are dyadic/decimal). -/

/-- JavaScript `Math.round`: half-up, toward `+∞`. -/
def jsRound (q : ℚ) : Int :=
  ⌊q + 1 / 2⌋

/-- Decimal digits of a natural number, most significant first. -/
def natToDecAux : Nat → Nat → List Char
  | 0, _ => []
  | f + 1, n =>
    if n < 10 then [Char.ofNat (48 + n)]
    else natToDecAux f (n / 10) ++ [Char.ofNat (48 + n % 10)]

/-- Decimal rendering of a natural number. -/
def natToDec (n : Nat) : String :=
  String.mk (natToDecAux (n + 1) n)

/-- Fractional decimal digits of `q ∈ [0, 1)`, up to 17 places (enough
for every terminating value the pipeline produces). -/
def ratFracDigits : Nat → ℚ → List Char
  | 0, _ => []
  | f + 1, q =>
    if q = 0 then []
    else
      let q10 := q * 10
      let d := (⌊q10⌋).toNat
      Char.ofNat (48 + d) :: ratFracDigits f (q10 - ⌊q10⌋)

/-- Template-literal rendering `${q}` of a (terminating-decimal)
JavaScript number. -/
def ratToJsString (q : ℚ) : String :=
  let sign : String := if q < 0 then "-" else ""
  let aq := |q|
  let ip := (⌊aq⌋).toNat
  let frac := ratFracDigits 17 (aq - ⌊aq⌋)
  sign ++ natToDec ip ++ (if frac.isEmpty then "" else "." ++ String.mk frac)

/-- Template-literal rendering `${n}` of an integer value. -/
def intToJsString (n : Int) : String :=
  (if n < 0 then "-" else "") ++ natToDec n.natAbs

/-- JavaScript truthiness of an optional number (`undefined` and `0` are
falsy). -/
def qTruthy : Option ℚ → Bool
  | none => false
  | some q => q ≠ 0

/-- JavaScript truthiness of an optional string (`undefined` and `""`
are falsy). -/
def sTruthy : Option String → Bool
  | none => false
  | some s => s ≠ ""

/-! ## Data model

`FigmaNode` (from `src/types/figma`): the recursive design-tree node
with exactly the fields the generators read.  Numeric fields are
`Option ℚ` (absent = `undefined`), list fields default to `[]`. -/

structure FigmaColor where
  r : ℚ
  g : ℚ
  b : ℚ
  a : ℚ
  deriving Repr, DecidableEq

structure FigmaPaint where
  type : String
  color : Option FigmaColor
  opacity : Option ℚ
  deriving Repr, DecidableEq

structure FigmaBox where
  width : ℚ
  height : ℚ
  deriving Repr, DecidableEq

structure FigmaVec where
  x : ℚ
  y : ℚ
  deriving Repr, DecidableEq

structure FigmaEffect where
  type : String
  visible : Option Bool
  offset : Option FigmaVec
  radius : Option ℚ
  color : Option FigmaColor
  deriving Repr, DecidableEq

structure FigmaTextStyle where
  fontFamily : String
  fontSize : ℚ
  lineHeightPx : ℚ
  letterSpacing : ℚ
  fills : List FigmaPaint
  deriving Repr, DecidableEq

inductive FigmaNode : Type where
  | node :
    (id : String) → (name : String) → (type : String) →
    (children : List FigmaNode) →
    (characters : Option String) →
    (layoutMode : Option String) →
    (itemSpacing : Option ℚ) →
    (paddingLeft : Option ℚ) → (paddingRight : Option ℚ) →
    (paddingTop : Option ℚ) → (paddingBottom : Option ℚ) →
    (cornerRadius : Option ℚ) →
    (backgroundColor : Option FigmaColor) →
    (fills : List FigmaPaint) → (strokes : List FigmaPaint) →
    (strokeWeight : Option ℚ) →
    (effects : List FigmaEffect) →
    (style : Option FigmaTextStyle) →
    (absoluteBoundingBox : Option FigmaBox) → FigmaNode
  deriving Repr

namespace FigmaNode

def id : FigmaNode → String
  | .node v _ _ _ _ _ _ _ _ _ _ _ _ _ _ _ _ _ _ => v

def name : FigmaNode → String
  | .node _ v _ _ _ _ _ _ _ _ _ _ _ _ _ _ _ _ _ => v

def type : FigmaNode → String
  | .node _ _ v _ _ _ _ _ _ _ _ _ _ _ _ _ _ _ _ => v

def children : FigmaNode → List FigmaNode
  | .node _ _ _ v _ _ _ _ _ _ _ _ _ _ _ _ _ _ _ => v

def characters : FigmaNode → Option String
  | .node _ _ _ _ v _ _ _ _ _ _ _ _ _ _ _ _ _ _ => v

def layoutMode : FigmaNode → Option String
  | .node _ _ _ _ _ v _ _ _ _ _ _ _ _ _ _ _ _ _ => v

def itemSpacing : FigmaNode → Option ℚ
  | .node _ _ _ _ _ _ v _ _ _ _ _ _ _ _ _ _ _ _ => v

def paddingLeft : FigmaNode → Option ℚ
  | .node _ _ _ _ _ _ _ v _ _ _ _ _ _ _ _ _ _ _ => v

def paddingRight : FigmaNode → Option ℚ
  | .node _ _ _ _ _ _ _ _ v _ _ _ _ _ _ _ _ _ _ => v

def paddingTop : FigmaNode → Option ℚ
  | .node _ _ _ _ _ _ _ _ _ v _ _ _ _ _ _ _ _ _ => v

def paddingBottom : FigmaNode → Option ℚ
  | .node _ _ _ _ _ _ _ _ _ _ v _ _ _ _ _ _ _ _ => v

def cornerRadius : FigmaNode → Option ℚ
  | .node _ _ _ _ _ _ _ _ _ _ _ v _ _ _ _ _ _ _ => v

def backgroundColor : FigmaNode → Option FigmaColor
  | .node _ _ _ _ _ _ _ _ _ _ _ _ v _ _ _ _ _ _ => v

def fills : FigmaNode → List FigmaPaint
  | .node _ _ _ _ _ _ _ _ _ _ _ _ _ v _ _ _ _ _ => v

def strokes : FigmaNode → List FigmaPaint
  | .node _ _ _ _ _ _ _ _ _ _ _ _ _ _ v _ _ _ _ => v

def strokeWeight : FigmaNode → Option ℚ
  | .node _ _ _ _ _ _ _ _ _ _ _ _ _ _ _ v _ _ _ => v

def effects : FigmaNode → List FigmaEffect
  | .node _ _ _ _ _ _ _ _ _ _ _ _ _ _ _ _ v _ _ => v

def style : FigmaNode → Option FigmaTextStyle
  | .node _ _ _ _ _ _ _ _ _ _ _ _ _ _ _ _ _ v _ => v

def absoluteBoundingBox : FigmaNode → Option FigmaBox
  | .node _ _ _ _ _ _ _ _ _ _ _ _ _ _ _ _ _ _ v => v

end FigmaNode

/-- A convenience constructor: a node with only id/name/type set
(everything optional absent, no children) — used for concrete inputs. -/
def plainNode (id name type : String) : FigmaNode :=
  .node id name type [] none none none none none none none none none
    [] [] none [] none none

/-- `OptimizationConfig` (identical in `performance-optimizer` and
`enterprise/core/ConfigurationManager`). -/
structure OptimizationConfig where
  enableCSSMinification : Bool
  enableTreeShaking : Bool
  enableComponentDeduplication : Bool
  enableAssetOptimization : Bool
  enableLazyLoading : Bool
  maxBundleSize : Nat
  targetPerformanceScore : Nat
  deriving Repr, DecidableEq

/-- `EnterpriseGenerationConfig`.  `framework`, `styling` and the two
architecture fields are closed string unions in TypeScript; they are
modelled as runtime strings because the invalid-configuration claims
quantify over values outside the union. -/
structure EnterpriseGenerationConfig where
  optimization : OptimizationConfig
  framework : String
  styling : String
  typescript : Bool
  componentArchitecture : String
  cssArchitecture : String
  enableDesignSystem : Bool
  enableComponentLibrary : Bool
  enableThemeSupport : Bool
  enableI18n : Bool
  enableTesting : Bool
  enableStorybook : Bool
  enableDocumentation : Bool
  enforceAccessibility : Bool
  enforcePerformance : Bool
  enforceCodeStandards : Bool
  maxComponentsPerBundle : Nat
  enableCodeSplitting : Bool
  enableTreeShaking : Bool
  enableLazyLoading : Bool
  deriving Repr, DecidableEq

/-- `accessibility` report attached to a generated component. -/
structure AccessibilityReport where
  score : Nat
  issues : List String
  suggestions : List String
  wcagCompliance : String
  deriving Repr, DecidableEq

/-- `responsive` breakdown attached to a generated component. -/
structure ResponsiveInfo where
  mobile : String
  tablet : String
  desktop : String
  hasResponsiveDesign : Bool
  deriving Repr, DecidableEq

/-- `ComponentMetadata`; the trailing optional fields are written by the
optimization passes (`isBaseComponent`, `extendsComponent`, `chunkId`,
`lazyLoad`). `generationTime` holds the `Date.now()` value. -/
structure ComponentMetadata where
  figmaNodeId : String
  componentType : String
  complexity : String
  estimatedAccuracy : Nat
  generationTime : Nat
  dependencies : List String
  isBaseComponent : Option Bool := none
  extendsComponent : Option String := none
  chunkId : Option String := none
  lazyLoad : Option Bool := none
  deriving Repr, DecidableEq

/-- `GeneratedComponent`, the pipeline's central output unit. -/
structure GeneratedComponent where
  id : String
  name : String
  jsx : String
  css : String
  typescript : Option String
  accessibility : AccessibilityReport
  responsive : ResponsiveInfo
  metadata : ComponentMetadata
  deriving Repr, DecidableEq

/-- One entry of the `components` map of a `FigmaApiResponse`. -/
structure FigmaComponentRef where
  key : String
  name : String
  deriving Repr, DecidableEq

/-- `FigmaApiResponse`: the document tree plus the components map
(`Object.entries` iterates the map in insertion order, so the map is an
ordered key/value list). -/
structure FigmaApiResponse where
  document : FigmaNode
  components : List (String × FigmaComponentRef)

/-- A prop extracted from a node (`{ name, type }`). -/
structure PropField where
  name : String
  type : String
  deriving Repr, DecidableEq

/-! ## `ReactGenerator` (`enterprise/generators/frameworks/ReactGenerator.ts`)

Every function takes the configuration explicitly (the class stores it
in `this.config`); `Date.now()` is the explicit `now` argument of
`generateMetadata`/`generateComponent`. -/

namespace ReactGenerator

/-- `` `.${node.name.toLowerCase().replace(/\s+/g, '-')}` `` — the
class-name string (dot included) shared by the emitters. -/
def nodeClassName (node : FigmaNode) : String :=
  "." ++ jsReplaceWs "-" (jsToLowerString node.name)

mutual

/-- `generateChildren`: a `TEXT` node renders its characters (or the
`children` placeholder), otherwise one wrapping `div` with recursively
rendered children in document order. -/
def generateChildren : FigmaNode → String
  | n@(.node _ _ _ children _ _ _ _ _ _ _ _ _ _ _ _ _ _ _) =>
    let className := nodeClassName n
    if n.type = "TEXT" then
      "<div className=\"" ++ className ++ "\">\x7b" ++
        (if sTruthy n.characters then "\"" ++ n.characters.getD "" ++ "\""
         else "children") ++ "\x7d</div>"
    else if children.length > 0 then
      "<div className=\"" ++ className ++ "\">\n    " ++
        joinSep "\n    " (generateChildrenList children) ++ "\n  </div>"
    else
      "<div className=\"" ++ className ++ "\" />"

def generateChildrenList : List FigmaNode → List String
  | [] => []
  | c :: cs => generateChildren c :: generateChildrenList cs

end

/-- `extractProps`. -/
def extractProps (node : FigmaNode) : List PropField :=
  (if sTruthy node.characters then [⟨"text", "string"⟩] else []) ++
  (if node.fills.any (fun f => f.type = "IMAGE") then [⟨"src", "string"⟩]
   else [])

/-- `generateHooks`. -/
def generateHooks (node : FigmaNode) : List String :=
  if jsIncludes (jsToLowerString node.name) "button" then
    ["const [isPressed, setIsPressed] = useState(false);"]
  else []

/-- `generateImports` (the base import is swapped for the `useState`
variant when some hook mentions `useState`). -/
def generateImports (node : FigmaNode) : List String :=
  if (generateHooks node).any (fun h => jsIncludes h "useState") then
    ["import React, \x7b useState \x7d from \"react\";"]
  else
    ["import React from \"react\";"]

/-- `generatePropsInterface`. -/
def generatePropsInterface (props : List PropField) (componentName : String) :
    String :=
  "interface " ++ componentName ++ "Props \x7b\n  " ++
    joinSep "\n  " (props.map (fun p => p.name ++ "?: " ++ p.type ++ ";")) ++
    "\n  className?: string;\n  children?: React.ReactNode;\n\x7d"

/-- `generateJSX`. -/
def generateJSX (cfg : EnterpriseGenerationConfig) (node : FigmaNode)
    (componentName : String) : String :=
  let props := extractProps node
  let children := generateChildren node
  let hooks := generateHooks node
  let imports := generateImports node
  let propsInterface :=
    if cfg.typescript then generatePropsInterface props componentName else ""
  let componentSignature :=
    if cfg.typescript then
      "export const " ++ componentName ++ ": React.FC<" ++ componentName ++
        "Props> = (\x7b " ++ joinSep ", " (props.map (·.name)) ++ " \x7d)"
    else
      "export const " ++ componentName ++ " = (\x7b " ++
        joinSep ", " (props.map (·.name)) ++ " \x7d)"
  let hooksSection :=
    if hooks.length > 0 then "\n  // Hooks\n  " ++ joinSep "\n  " hooks ++ "\n"
    else ""
  let themeHook :=
    if cfg.enableThemeSupport then "\n  const theme = useTheme();" else ""
  let i18nHook :=
    if cfg.enableI18n then "\n  const \x7b t \x7d = useTranslation();" else ""
  joinSep "\n" imports ++ "\n" ++
    (if cfg.enableThemeSupport then
      "import \x7b useTheme \x7d from '../hooks/useTheme';" else "") ++ "\n" ++
    (if cfg.enableI18n then
      "import \x7b useTranslation \x7d from 'react-i18next';" else "") ++ "\n\n" ++
    propsInterface ++ "\n" ++
    componentSignature ++ " => \x7b" ++ hooksSection ++ themeHook ++ i18nHook ++
    "\n  return (\n    " ++ children ++ "\n  );\n\x7d;\n\nexport default " ++
    componentName ++ ";"

/-- `generateBaseCSS`. -/
def generateBaseCSS (node : FigmaNode) (_componentName : String) : String :=
  let className := nodeClassName node
  let styles : List String :=
    (if node.layoutMode = some "HORIZONTAL" then
      ["display: flex;", "flex-direction: row;"]
    else if node.layoutMode = some "VERTICAL" then
      ["display: flex;", "flex-direction: column;"]
    else []) ++
    (if qTruthy node.itemSpacing then
      ["gap: " ++ ratToJsString (node.itemSpacing.getD 0) ++ "px;"]
    else []) ++
    (if qTruthy node.paddingLeft || qTruthy node.paddingRight ||
        qTruthy node.paddingTop || qTruthy node.paddingBottom then
      ["padding: " ++ ratToJsString (node.paddingTop.getD 0) ++ "px " ++
        ratToJsString (node.paddingRight.getD 0) ++ "px " ++
        ratToJsString (node.paddingBottom.getD 0) ++ "px " ++
        ratToJsString (node.paddingLeft.getD 0) ++ "px;"]
    else []) ++
    (match node.backgroundColor with
    | some bg =>
      ["background-color: rgba(" ++ intToJsString (jsRound (bg.r * 255)) ++
        ", " ++ intToJsString (jsRound (bg.g * 255)) ++ ", " ++
        intToJsString (jsRound (bg.b * 255)) ++ ", " ++ ratToJsString bg.a ++
        ");"]
    | none => []) ++
    (if qTruthy node.cornerRadius then
      ["border-radius: " ++ ratToJsString (node.cornerRadius.getD 0) ++ "px;"]
    else [])
  className ++ " \x7b\n  " ++
    joinSep "\n" (styles.map (fun style => "  " ++ style)) ++ "\n\x7d"

/-- `generateResponsiveCSS` (fixed 768px/1024px media queries). -/
def generateResponsiveCSS (node : FigmaNode) : String :=
  let className := nodeClassName node
  "@media (max-width: 768px) \x7b\n  " ++ className ++
    " \x7b\n    padding: 1rem;\n  \x7d\n\x7d\n\n@media (min-width: 1024px) \x7b\n  " ++
    className ++ " \x7b\n    padding: 2rem;\n  \x7d\n\x7d"

/-- `generateThemeCSS`. -/
def generateThemeCSS (node : FigmaNode) : String :=
  let className := nodeClassName node
  className ++
    " \x7b\n  color: hsl(var(--foreground));\n  background: hsl(var(--background));\n\x7d\n\n[data-theme=\"dark\"] " ++
    className ++
    " \x7b\n  color: hsl(var(--foreground));\n  background: hsl(var(--background));\n\x7d"

/-- `generateAnimationCSS`. -/
def generateAnimationCSS (node : FigmaNode) : String :=
  let className := nodeClassName node
  className ++ " \x7b\n  transition: all 0.3s ease;\n\x7d\n\n" ++ className ++
    ":hover \x7b\n  transform: translateY(-2px);\n\x7d"

/-- `generateCSS`. -/
def generateCSS (cfg : EnterpriseGenerationConfig) (node : FigmaNode)
    (componentName : String) : String :=
  let baseCSS := generateBaseCSS node componentName
  let responsiveCSS := generateResponsiveCSS node
  let themeCSS := if cfg.enableThemeSupport then generateThemeCSS node else ""
  let animationCSS := generateAnimationCSS node
  jsTrim (baseCSS ++ "\n\n" ++ responsiveCSS ++ "\n\n" ++ themeCSS ++ "\n\n" ++
    animationCSS)

/-- `generateTypeScript`. -/
def generateTypeScript (node : FigmaNode) (componentName : String) : String :=
  let props := extractProps node
  "export interface " ++ componentName ++ "Props \x7b\n  " ++
    joinSep "\n  " (props.map (fun p =>
      p.name ++ "?: " ++ (if p.type = "" then "any" else p.type) ++ ";")) ++
    "\n  className?: string;\n  children?: React.ReactNode;\n\x7d"

/-- `analyzeAccessibility` (constant report). -/
def analyzeAccessibility (_node : FigmaNode) : AccessibilityReport :=
  ⟨85, [], ["Add ARIA labels", "Ensure keyboard navigation"], "AA"⟩

/-- `analyzeResponsive` (constant report). -/
def analyzeResponsive (_node : FigmaNode) : ResponsiveInfo :=
  ⟨"responsive", "responsive", "responsive", true⟩

/-- `getComponentType`. -/
def getComponentType (node : FigmaNode) : String :=
  if node.type = "TEXT" then "text"
  else if node.type = "FRAME" then "layout"
  else if jsIncludes (jsToLowerString node.name) "button" then "button"
  else if jsIncludes (jsToLowerString node.name) "card" then "card"
  else if jsIncludes (jsToLowerString node.name) "input" then "input"
  else "complex"

/-- `generateMetadata`; `now` is the `Date.now()` read. -/
def generateMetadata (now : Nat) (node : FigmaNode)
    (_componentName : String) : ComponentMetadata :=
  { figmaNodeId := node.id
    componentType := getComponentType node
    complexity := "medium"
    estimatedAccuracy := 85
    generationTime := now
    dependencies := [] }

/-- `generateComponent`. -/
def generateComponent (cfg : EnterpriseGenerationConfig) (now : Nat)
    (node : FigmaNode) (componentName : String) : GeneratedComponent :=
  let sanitizedName := ReactGenerator.sanitizeComponentName componentName
  { id := node.id
    name := sanitizedName
    jsx := generateJSX cfg node sanitizedName
    css := generateCSS cfg node sanitizedName
    typescript :=
      if cfg.typescript then some (generateTypeScript node sanitizedName)
      else none
    accessibility := analyzeAccessibility node
    responsive := analyzeResponsive node
    metadata := generateMetadata now node sanitizedName }

/-- `getFrameworkSpecificCode`. -/
def getFrameworkSpecificCode (component : GeneratedComponent) : String :=
  component.jsx

mutual

/-- `findNodeById` (depth-first, document order). -/
def findNodeById : FigmaNode → String → Option FigmaNode
  | n@(.node _ _ _ children _ _ _ _ _ _ _ _ _ _ _ _ _ _ _), targetId =>
    if n.id = targetId then some n else findNodeByIdList children targetId

def findNodeByIdList : List FigmaNode → String → Option FigmaNode
  | [], _ => none
  | c :: cs, targetId =>
    match findNodeById c targetId with
    | some found => some found
    | none => findNodeByIdList cs targetId

end

mutual

/-- `findFrames` (the node itself first, then its children, depth
first). -/
def findFrames : FigmaNode → List FigmaNode
  | n@(.node _ _ _ children _ _ _ _ _ _ _ _ _ _ _ _ _ _ _) =>
    (if n.type = "FRAME" then [n] else []) ++ findFramesList children

def findFramesList : List FigmaNode → List FigmaNode
  | [] => []
  | c :: cs => findFrames c ++ findFramesList cs

end

/-- `generateLayoutComponent`. -/
def generateLayoutComponent (cfg : EnterpriseGenerationConfig) (now : Nat)
    (frame : FigmaNode) : GeneratedComponent :=
  generateComponent cfg now frame (frame.name ++ "Layout")

/-- `generateComponents`: the `forEach`+`push` loops are rendered as an
order-preserving `filterMap` over the components map followed by the
frame traversal. -/
def generateComponents (cfg : EnterpriseGenerationConfig) (now : Nat)
    (figmaData : FigmaApiResponse) : List GeneratedComponent :=
  (figmaData.components.filterMap fun kv =>
    (findNodeById figmaData.document kv.2.key).map fun node =>
      generateComponent cfg now node kv.2.name) ++
  (findFrames figmaData.document).map fun frame =>
    generateLayoutComponent cfg now frame

end ReactGenerator

/-! ## CSS-rule matching shared by the optimizer

`css.match(/[^{}]+\{[^{}]*\}/g)`: a rule is one-or-more non-brace
characters, `{`, zero-or-more non-brace characters, `}`.  Greedy runs
cannot be rescued by backtracking here (a shorter selector run is still
followed by a non-brace character), so a single pass is exact. -/

/-- Not a curly brace. -/
def notBrace (c : Char) : Bool :=
  c ≠ '{' && c ≠ '}'

/-- Try to match `/[^{}]+\{[^{}]*\}/` at the head of the list; returns
the matched text and the remainder. -/
def cssRuleAt (l : List Char) : Option (List Char × List Char) :=
  let sel := l.takeWhile notBrace
  if sel.isEmpty then none
  else
    match l.drop sel.length with
    | '{' :: rest =>
      let body := rest.takeWhile notBrace
      match rest.drop body.length with
      | '}' :: after => some (sel ++ '{' :: (body ++ ['}']), after)
      | _ => none
    | _ => none

/-- Global-match driver (the `g`-flag `match`): collect every match,
advancing one character after a failed position and past the matched
text after a successful one. -/
def matchAllAux (tryMatch : List Char → Option (List Char × List Char)) :
    Nat → List Char → List (List Char)
  | 0, _ => []
  | _ + 1, [] => []
  | f + 1, c :: rest =>
    match tryMatch (c :: rest) with
    | some (m, after) => m :: matchAllAux tryMatch f after
    | none => matchAllAux tryMatch f rest

/-- `css.match(/[^{}]+\{[^{}]*\}/g) || []` as a list of strings. -/
def cssMatchRules (css : String) : List String :=
  (matchAllAux cssRuleAt (css.data.length + 1) css.data).map String.mk

/-- `String.prototype.split(sep)` for a one-character separator. -/
def jsSplitChar (sep : Char) : List Char → List (List Char)
  | [] => [[]]
  | c :: rest =>
    let tail := jsSplitChar sep rest
    if c = sep then [] :: tail
    else
      match tail with
      | seg :: segs => (c :: seg) :: segs
      | [] => [[c]]

/-- `String.prototype.replace('}', '')`: remove the first occurrence of
a character (no-op when absent). -/
def removeFirstChar (target : Char) : List Char → List Char
  | [] => []
  | c :: rest => if c = target then rest else c :: removeFirstChar target rest

/-- `rule.split('{')[1]?.replace('}', '').trim()` — `none` when the rule
has no `{`. -/
def ruleProperties (rule : String) : Option String :=
  ((jsSplitChar '{' rule.data).get? 1).map fun seg =>
    jsTrim (String.mk (removeFirstChar '}' seg))

/-! ## `PerformanceOptimizer` (`performance-optimizer.ts`)

The mutable `metrics` counters are observability only and are not
modelled; every pass is the pure component-list transformation of the
source. -/

namespace PerformanceOptimizer

/-- `simpleHash` (rolling 32-bit hash, base-36 rendering). -/
def simpleHash (s : String) : String :=
  jsHashString s

/-- `generateComponentHash`: hash of the concatenated `jsx + css`. -/
def generateComponentHash (c : GeneratedComponent) : String :=
  simpleHash (c.jsx ++ c.css)

/-- The insertion-ordered `Map` accumulation of `deduplicateComponents`:
the first component of each hash is kept, later ones are dropped. -/
def dedupAux : List GeneratedComponent →
    List (String × GeneratedComponent) → List (String × GeneratedComponent)
  | [], acc => acc
  | c :: rest, acc =>
    let h := generateComponentHash c
    if acc.any (fun p => p.1 = h) then dedupAux rest acc
    else dedupAux rest (acc ++ [(h, c)])

/-- `deduplicateComponents`: `Array.from(uniqueComponents.values())` in
insertion order. -/
def deduplicateComponents (components : List GeneratedComponent) :
    List GeneratedComponent :=
  (dedupAux components []).map (·.2)

/-- Total `Blob` byte count of all `jsx`/`css` text. -/
def bundleBytes (components : List GeneratedComponent) : Nat :=
  components.foldl (fun total c => total + blobSize c.jsx + blobSize c.css) 0

/-- `calculateBundleSize`: bytes divided by 1024 (KB; the division is
exact in JavaScript doubles, so a rational models it faithfully). -/
def calculateBundleSize (components : List GeneratedComponent) : ℚ :=
  (bundleBytes components : ℚ) / 1024

/-- `extractCommonStylePatterns`: the insertion-ordered `Set` of all
rule bodies appearing in any component's CSS. -/
def extractCommonStylePatterns (components : List GeneratedComponent) :
    List String :=
  components.foldl (fun acc c =>
    (cssMatchRules c.css).foldl (fun acc rule =>
      match ruleProperties rule with
      | some p => if p ≠ "" && !(acc.contains p) then acc ++ [p] else acc
      | none => acc) acc) []

/-- `removeRedundantFromCSS`: for each common style, globally replace
`\{\s*STYLE\s*\}` by the placeholder comment. -/
def removeRedundantFromCSS (css : String) (commonStyles : List String) :
    String :=
  commonStyles.foldl (fun acc style =>
    jsReplaceAll
      (matchBraceStyle style.data "\x7b /* extracted to utility */ \x7d".data)
      acc) css

/-- `removeRedundantStyles`. -/
def removeRedundantStyles (components : List GeneratedComponent) :
    List GeneratedComponent :=
  let commonStyles := extractCommonStylePatterns components
  components.map fun c => { c with css := removeRedundantFromCSS c.css commonStyles }

/-- `extractStyleRules`: the trimmed non-empty rule bodies of one CSS
text. -/
def extractStyleRules (css : String) : List String :=
  (((cssMatchRules css).filterMap ruleProperties).filter (fun s => s ≠ ""))

/-- The insertion-ordered `styleFrequency` map update. -/
def bumpFreq (m : List (String × Nat)) (k : String) : List (String × Nat) :=
  if m.any (fun p => p.1 = k) then
    m.map (fun p => if p.1 = k then (p.1, p.2 + 1) else p)
  else m ++ [(k, 1)]

/-- `styleFrequency` over a whole batch. -/
def styleFrequency (components : List GeneratedComponent) :
    List (String × Nat) :=
  components.foldl (fun m c => (extractStyleRules c.css).foldl bumpFreq m) []

/-- `generateUtilityClasses` (the private optimizer copy taking the
common-style list). -/
def generateUtilityClasses (commonStyles : List String) : String :=
  joinSep "\n\n" (commonStyles.enum.map fun p =>
    ".utility-" ++ natToDec p.1 ++ " \x7b\n  " ++ p.2 ++ "\n\x7d")

/-- `replaceWithUtilities`. -/
def replaceWithUtilities (css : String) (commonStyles : List String) :
    String :=
  commonStyles.enum.foldl (fun acc p =>
    jsReplaceAll
      (matchBraceStyle p.2.data
        ("\x7b @apply utility-" ++ natToDec p.1 ++ "; \x7d").data)
      acc) css

/-- `updateJSXWithUtilities` (source: returns the JSX unchanged). -/
def updateJSXWithUtilities (jsx : String) (_commonStyles : List String) :
    String :=
  jsx

/-- `extractCommonStyles`: styles used by ≥ 3 rules become utility
classes; the utility stylesheet is prepended to every component's CSS. -/
def extractCommonStyles (components : List GeneratedComponent) :
    List GeneratedComponent :=
  let commonStyles :=
    ((styleFrequency components).filter (fun p => 3 ≤ p.2)).map (·.1)
  let utilityCSS := generateUtilityClasses commonStyles
  components.map fun c =>
    { c with
      css := utilityCSS ++ "\n\n" ++ replaceWithUtilities c.css commonStyles
      jsx := updateJSXWithUtilities c.jsx commonStyles }

/-- The chunk-building loop of `createComponentChunks`
(`for (i = 0; i < len; i += chunkSize)`). -/
def buildChunksAux (components : List GeneratedComponent)
    (chunkSize : Nat) : Nat → Nat → List (String × List String)
  | 0, _ => []
  | f + 1, i =>
    if i < components.length then
      ("chunk-" ++ natToDec (i / chunkSize),
        ((components.drop i).take chunkSize).map (·.id)) ::
        buildChunksAux components chunkSize f (i + chunkSize)
    else []

/-- `createComponentChunks` (`chunkSize = Math.ceil(len / 5)`; for the
empty list the source loop would not run at all since `0 < 0` fails). -/
def createComponentChunks (components : List GeneratedComponent) :
    List (String × List String) :=
  let chunkSize := (components.length + 4) / 5
  if chunkSize = 0 then []
  else buildChunksAux components chunkSize (components.length + 1) 0

/-- `getComponentChunk`. -/
def getComponentChunk (componentId : String)
    (chunks : List (String × List String)) : String :=
  match chunks.find? (fun p => p.2.contains componentId) with
  | some p => p.1
  | none => "default"

/-- `shouldLazyLoad`. -/
def shouldLazyLoad (cfg : OptimizationConfig) (c : GeneratedComponent) :
    Bool :=
  cfg.enableLazyLoading && c.metadata.complexity ≠ "simple"

/-- `applyCodeSplitting` (only metadata changes; `jsx`/`css` are kept). -/
def applyCodeSplitting (cfg : OptimizationConfig)
    (components : List GeneratedComponent) : List GeneratedComponent :=
  let chunks := createComponentChunks components
  components.map fun c =>
    { c with
      metadata :=
        { c.metadata with
          chunkId := some (getComponentChunk c.id chunks)
          lazyLoad := some (shouldLazyLoad cfg c) } }

/-- `optimizeBundleSize`: return unchanged when within budget, else the
escalating passes (redundant-style removal → common-style extraction →
code splitting when still over). -/
def optimizeBundleSize (cfg : OptimizationConfig)
    (components : List GeneratedComponent) : List GeneratedComponent :=
  if calculateBundleSize components ≤ (cfg.maxBundleSize : ℚ) then components
  else
    let o1 := removeRedundantStyles components
    let o2 := extractCommonStyles o1
    if (cfg.maxBundleSize : ℚ) < calculateBundleSize o2 then
      applyCodeSplitting cfg o2
    else o2

/-- `optimizeImages` (the `PerformanceOptimizer` copy: the `<img>` lazy
rewrite followed by the `width/height` aspect-ratio rewrite). -/
def optimizeImages (jsx : String) : String :=
  jsReplaceAll matchWidthHeight (jsReplaceAll matchImgTag jsx)

end PerformanceOptimizer

/-- `OptimizationEngine.optimizeImages`
(`enterprise/optimization/OptimizationEngine.ts`): only the `<img>`
lazy-loading rewrite. -/
def OptimizationEngine.optimizeImages (jsx : String) : String :=
  jsReplaceAll matchImgTag jsx

/-! ## `ComponentLibraryManager` (`component-library-manager.ts`) -/

namespace ComponentLibraryManager

/-- `hashString` (identical rolling hash). -/
def hashString (s : String) : String :=
  jsHashString s

/-- `extractPattern`: normalize whitespace, blank out `className`
attributes and brace blocks, then hash. -/
def extractPattern (component : GeneratedComponent) : String :=
  let structText :=
    jsReplaceAll (matchBraceBlock "\x7b*\x7d".data)
      (jsReplaceAll (matchClassNameAttr "className=\"*\"".data)
        (jsReplaceWs " " component.jsx))
  hashString structText

/-- Insertion-ordered group update for `analyzeComponentPatterns`. -/
def addToGroup (m : List (String × List GeneratedComponent)) (k : String)
    (c : GeneratedComponent) : List (String × List GeneratedComponent) :=
  if m.any (fun p => p.1 = k) then
    m.map (fun p => if p.1 = k then (p.1, p.2 ++ [c]) else p)
  else m ++ [(k, [c])]

/-- `analyzeComponentPatterns`: group components by structural
fingerprint, in first-seen order. -/
def analyzeComponentPatterns (components : List GeneratedComponent) :
    List (String × List GeneratedComponent) :=
  components.foldl (fun m c => addToGroup m (extractPattern c) c) []

/-- `createBaseComponent`. -/
def createBaseComponent (component : GeneratedComponent) (pattern : String) :
    GeneratedComponent :=
  { component with
    id := "base-" ++ pattern
    name := "Base" ++ component.name
    metadata :=
      { component.metadata with
        componentType := "layout"
        isBaseComponent := some true } }

/-- `extractReusableComponents`: one synthesized base per group with at
least three members, built from the group's first member. -/
def extractReusableComponents
    (patterns : List (String × List GeneratedComponent)) :
    List GeneratedComponent :=
  patterns.foldl (fun acc p =>
    match p.2 with
    | c0 :: rest =>
      if 3 ≤ (c0 :: rest).length then acc ++ [createBaseComponent c0 p.1]
      else acc
    | [] => acc) []

/-- `findMatchingBaseComponent` (`base.id.includes(componentPattern)`). -/
def findMatchingBaseComponent (component : GeneratedComponent)
    (baseComponents : List GeneratedComponent) : Option GeneratedComponent :=
  baseComponents.find? (fun base => jsIncludes base.id (extractPattern component))

/-- `updateJSXToExtendBase`: prepend the base import. -/
def updateJSXToExtendBase (jsx baseName : String) : String :=
  "import \x7b " ++ baseName ++ " \x7d from './" ++ baseName ++ "';\n\n" ++ jsx

/-- `updateCSSToExtendBase`: prepend the base `@import`. -/
def updateCSSToExtendBase (css baseName : String) : String :=
  "@import './" ++ baseName ++ ".css';\n\n" ++ css

/-- `extendBaseComponent`. -/
def extendBaseComponent (component baseComponent : GeneratedComponent) :
    GeneratedComponent :=
  { component with
    jsx := updateJSXToExtendBase component.jsx baseComponent.name
    css := updateCSSToExtendBase component.css baseComponent.name
    metadata :=
      { component.metadata with extendsComponent := some baseComponent.name } }

/-- `updateComponentsWithReusablePatterns`. -/
def updateComponentsWithReusablePatterns
    (components reusableComponents : List GeneratedComponent) :
    List GeneratedComponent :=
  components.map fun component =>
    match findMatchingBaseComponent component reusableComponents with
    | some base => extendBaseComponent component base
    | none => component

/-- `generateBaseJSX`. -/
def generateBaseJSX (component : GeneratedComponent) : String :=
  jsReplaceAll (matchBraceBlock "\x7bchildren\x7d".data)
    (jsReplaceAll (matchClassNameAttr "className=\x7bclassName\x7d".data)
      component.jsx)

/-- `generateBaseCSS`. -/
def generateBaseCSS (component : GeneratedComponent) : String :=
  jsReplaceAll (matchDigitsPx "var(--spacing-md)".data)
    (jsReplaceAll (matchHex6 "var(--color-primary)".data) component.css)

/-- `generateBaseComponents`. -/
def generateBaseComponents (reusableComponents : List GeneratedComponent) :
    List GeneratedComponent :=
  reusableComponents.map fun c =>
    { c with jsx := generateBaseJSX c, css := generateBaseCSS c }

/-- `optimizeForReusability`: extract base components from ≥3-member
fingerprint groups, rewrite the members to reference them, and append
the synthesized bases. -/
def optimizeForReusability (components : List GeneratedComponent) :
    List GeneratedComponent :=
  let patterns := analyzeComponentPatterns components
  let reusableComponents := extractReusableComponents patterns
  let optimized :=
    updateComponentsWithReusablePatterns components reusableComponents
  let baseComponents := generateBaseComponents reusableComponents
  optimized ++ baseComponents

end ComponentLibraryManager

/-! ## Quality analysis -/

/-- `s.length` in JavaScript counts UTF-16 code units. -/
def jsLength (s : String) : Nat :=
  (utf16Codes s).length

/-- `QualityIssue`. -/
structure QualityIssue where
  type : String
  category : String
  message : String
  file : String
  line : Option Nat
  fix : String
  deriving Repr, DecidableEq

/-- The `QualityReport` interface of `enterprise-code-generator.ts`
(scores plus `testCoverage` and the raw issues). -/
structure EcgQualityReport where
  codeQuality : Int
  accessibility : Int
  performance : Int
  maintainability : Int
  testCoverage : Int
  issues : List QualityIssue
  deriving Repr, DecidableEq

/-- The `QualityReport` shape of `src/types/figma` returned by
`QualityAssurance.analyzeQuality` and by the fallback result (note:
no `maintainability` and no `testCoverage` field). -/
structure QualityReport where
  overallScore : Int
  visualAccuracy : Int
  codeQuality : Int
  accessibility : Int
  performance : Int
  recommendations : List String
  deriving Repr, DecidableEq

namespace EnterpriseCodeGenerator

/-- `analyzeComponentQuality` (only the oversized-JSX rule exists in
this legacy class). -/
def analyzeComponentQuality (component : GeneratedComponent) :
    List QualityIssue :=
  if 1000 < jsLength component.jsx then
    [{ type := "warning"
       category := "maintainability"
       message := "Component is too large"
       file := component.name ++ ".tsx"
       line := none
       fix := "Consider breaking into smaller components" }]
  else []

/-- One switch step of the score-adjustment loop (`performance -= 5`,
`accessibility -= 10`, `maintainability -= 3`; unclamped here, the
clamp happens once at the end).  The triple is
(performance, accessibility, maintainability). -/
def ecgScoreStep (scores : Int × Int × Int) (issue : QualityIssue) :
    Int × Int × Int :=
  if issue.category = "performance" then
    (scores.1 - 5, scores.2.1, scores.2.2)
  else if issue.category = "accessibility" then
    (scores.1, scores.2.1 - 10, scores.2.2)
  else if issue.category = "maintainability" then
    (scores.1, scores.2.1, scores.2.2 - 3)
  else scores

/-- `EnterpriseCodeGenerator.analyzeQuality`: all scores start at 100,
per-issue penalties are subtracted, `Math.max(0, ·)` clamps at the end;
`testCoverage` is the 85/0 testing-flag constant. -/
def analyzeQuality (cfg : EnterpriseGenerationConfig)
    (components : List GeneratedComponent) : EcgQualityReport :=
  let issues := components.flatMap analyzeComponentQuality
  let scores := issues.foldl ecgScoreStep (100, 100, 100)
  { codeQuality := max 0 100
    accessibility := max 0 scores.2.1
    performance := max 0 scores.1
    maintainability := max 0 scores.2.2
    testCoverage := if cfg.enableTesting then 85 else 0
    issues := issues }

end EnterpriseCodeGenerator

namespace QualityAssurance

/-- `analyzeComponent` (`enterprise/quality/QualityAssurance.ts`): the
three textual heuristics, in source order. -/
def analyzeComponent (component : GeneratedComponent) : List QualityIssue :=
  (if 1000 < jsLength component.jsx then
    [{ type := "warning"
       category := "maintainability"
       message := "Component is too large"
       file := component.name ++ ".tsx"
       line := some 1
       fix := "Consider breaking into smaller components" }]
  else []) ++
  (if !(jsIncludes component.jsx "aria-") && !(jsIncludes component.jsx "role=")
  then
    [{ type := "warning"
       category := "accessibility"
       message := "Missing accessibility attributes"
       file := component.name ++ ".tsx"
       line := none
       fix := "Add ARIA labels and roles" }]
  else []) ++
  (if jsIncludes component.jsx "<img" &&
      !(jsIncludes component.jsx "loading=\"lazy\"") then
    [{ type := "info"
       category := "performance"
       message := "Images should use lazy loading"
       file := component.name ++ ".tsx"
       line := none
       fix := "Add loading=\"lazy\" to img tags" }]
  else [])

/-- One clamped score-adjustment step
(`performance = Math.max(0, performance - 5)` etc.); the triple is
(performance, accessibility, maintainability). -/
def qaScoreStep (scores : Int × Int × Int) (issue : QualityIssue) :
    Int × Int × Int :=
  if issue.category = "performance" then
    (max 0 (scores.1 - 5), scores.2.1, scores.2.2)
  else if issue.category = "accessibility" then
    (scores.1, max 0 (scores.2.1 - 10), scores.2.2)
  else if issue.category = "maintainability" then
    (scores.1, scores.2.1, max 0 (scores.2.2 - 3))
  else scores

/-- `generateRecommendations`. -/
def generateRecommendations (issues : List QualityIssue) : List String :=
  (if 0 < (issues.filter (fun i => i.category = "accessibility")).length then
    ["Fix " ++
      natToDec (issues.filter (fun i => i.category = "accessibility")).length ++
      " accessibility issues for WCAG compliance"]
  else []) ++
  (if 0 < (issues.filter (fun i => i.category = "performance")).length then
    ["Address " ++
      natToDec (issues.filter (fun i => i.category = "performance")).length ++
      " performance optimizations"]
  else []) ++
  (if 0 < (issues.filter (fun i => i.category = "maintainability")).length then
    ["Improve " ++
      natToDec (issues.filter (fun i => i.category = "maintainability")).length ++
      " maintainability concerns"]
  else [])

/-- The internal `maintainability` score of `analyzeQuality` (computed
but not part of the returned report). -/
def maintainabilityScore (components : List GeneratedComponent) : Int :=
  ((components.flatMap analyzeComponent).foldl qaScoreStep (100, 100, 100)).2.2

/-- `QualityAssurance.analyzeQuality`: per-step clamped deductions; the
report carries `overallScore` (rounded mean of the four internal
subscores) and the constant `visualAccuracy = 85`, and drops the
internal `maintainability`/`testCoverage` values. -/
def analyzeQuality (cfg : EnterpriseGenerationConfig)
    (components : List GeneratedComponent) : QualityReport :=
  let issues := components.flatMap analyzeComponent
  let scores := issues.foldl qaScoreStep (100, 100, 100)
  let codeQuality : Int := 100
  let accessibility := scores.2.1
  let performance := scores.1
  let maintainability := scores.2.2
  -- `testCoverage` is computed by the source but not returned
  let _testCoverage : Int := if cfg.enableTesting then 85 else 0
  { overallScore :=
      jsRound (((codeQuality + accessibility + performance +
        maintainability : Int) : ℚ) / 4)
    visualAccuracy := 85
    codeQuality := max 0 codeQuality
    accessibility := max 0 accessibility
    performance := max 0 performance
    recommendations := generateRecommendations issues }

end QualityAssurance

/-! ## Orchestrator result types (`enterprise/core/GenerationOrchestrator.ts`)

The token structures carry their required string fields; optional
descriptive metadata that nothing in the pipeline reads is omitted. -/

structure ColorToken where
  name : String
  value : String
  description : String
  deriving Repr, DecidableEq

structure TypographyToken where
  name : String
  fontSize : String
  fontWeight : String
  lineHeight : String
  letterSpacing : String
  fontFamily : String
  deriving Repr, DecidableEq

structure SpacingToken where
  name : String
  value : String
  description : String
  deriving Repr, DecidableEq

structure ShadowToken where
  name : String
  value : String
  description : String
  deriving Repr, DecidableEq

structure DesignTokens where
  colors : List ColorToken
  typography : List TypographyToken
  spacing : List SpacingToken
  shadows : List ShadowToken
  deriving Repr, DecidableEq

structure AnalysisResult where
  componentCount : Nat
  complexity : String
  designTokens : DesignTokens
  estimatedTime : ℚ
  deriving Repr, DecidableEq

structure DesignSystemOutput where
  tokens : String
  themes : List (String × String)
  utilities : String
  components : String
  deriving Repr, DecidableEq

structure DocumentationOutput where
  readme : String
  componentDocs : List (String × String)
  designGuidelines : String
  usageExamples : String
  deriving Repr, DecidableEq

structure TestOutput where
  unitTests : List (String × String)
  integrationTests : List (String × String)
  e2eTests : List (String × String)
  accessibilityTests : List (String × String)
  deriving Repr, DecidableEq

structure PerformanceReport where
  bundleSize : ℚ
  renderTime : ℚ
  memoryUsage : ℚ
  optimizationSavings : ℚ
  recommendations : List String
  generationTime : Option Nat := none
  deriving Repr, DecidableEq

structure GenerationResult where
  components : List GeneratedComponent
  designSystem : DesignSystemOutput
  documentation : DocumentationOutput
  tests : TestOutput
  performance : PerformanceReport
  quality : QualityReport
  deriving Repr, DecidableEq

/-! ## `ErrorHandler` (`enterprise/utils/ErrorHandler.ts`) -/

/-- A thrown JavaScript error value as the handler inspects it:
`name`, optional `message`, optional `stack`. -/
structure JsError where
  name : String
  message : Option String
  stack : Option String
  deriving Repr, DecidableEq

/-- `HandledError` (`context` is flattened to the `timestamp` and
`stackTrace` the fallback path reads). -/
structure HandledError where
  message : Option String
  code : String
  severity : String
  timestamp : Nat
  stackTrace : Option String
  suggestion : Option String
  recoverable : Bool
  deriving Repr, DecidableEq

/-- Template-literal interpolation of a possibly-`undefined` string. -/
def optToJs (o : Option String) : String :=
  o.getD "undefined"

namespace ErrorHandler

/-- `error.message?.includes(sub)` with `undefined` falsy. -/
def messageIncludes (error : JsError) (sub : String) : Bool :=
  match error.message with
  | some m => jsIncludes m sub
  | none => false

/-- `processError` (categorization cascade; `now` is the
`Date.now()` timestamp). -/
def processError (error : JsError) (now : Nat) : HandledError :=
  if error.name = "TypeError" then
    { message := error.message
      code := "TYPE_ERROR"
      severity := "medium"
      timestamp := now
      stackTrace := error.stack
      suggestion := some "Check type definitions and ensure proper data flow"
      recoverable := true }
  else if error.name = "NetworkError" || messageIncludes error "fetch" then
    { message := some "Network request failed"
      code := "NETWORK_ERROR"
      severity := "high"
      timestamp := now
      stackTrace := error.stack
      suggestion := some "Check internet connection and API endpoints"
      recoverable := true }
  else if messageIncludes error "Figma" then
    { message := error.message
      code := "FIGMA_API_ERROR"
      severity := "high"
      timestamp := now
      stackTrace := error.stack
      suggestion := some "Verify Figma file access and API token"
      recoverable := true }
  else if error.name = "SyntaxError" then
    { message := error.message
      code := "SYNTAX_ERROR"
      severity := "critical"
      timestamp := now
      stackTrace := error.stack
      suggestion := some "Check generated code syntax and templates"
      recoverable := false }
  else
    { message := some
        (match error.message with
        | some m => if m = "" then "Unknown error occurred" else m
        | none => "Unknown error occurred")
      code := "UNKNOWN_ERROR"
      severity := "medium"
      timestamp := now
      stackTrace := error.stack
      suggestion := some "Review error details and try again"
      recoverable := true }

/-- `createFallbackResult`: the well-typed result returned from a
failed run (empty components, error text embedded in the README, zeroed
quality/performance, the error's suggestion as the only quality
recommendation). -/
def createFallbackResult (error : HandledError) (now : Nat) :
    GenerationResult :=
  { components := []
    designSystem :=
      { tokens := "\x7b\x7d"
        themes := [("light", ""), ("dark", "")]
        utilities := ""
        components := "" }
    documentation :=
      { readme := "# Generation Failed\n\nError: " ++ optToJs error.message ++
          "\n\nSuggestion: " ++ optToJs error.suggestion
        componentDocs := []
        designGuidelines := ""
        usageExamples := "" }
    tests :=
      { unitTests := []
        integrationTests := []
        e2eTests := []
        accessibilityTests := [] }
    performance :=
      { bundleSize := 0
        renderTime := 0
        memoryUsage := 0
        optimizationSavings := 0
        recommendations := ["Failed with error: " ++ error.code]
        generationTime := some now }
    quality :=
      { overallScore := 0
        visualAccuracy := 0
        codeQuality := 0
        accessibility := 0
        performance := 0
        recommendations :=
          [match error.suggestion with
          | some s =>
            if s = "" then "Fix the underlying error and try again" else s
          | none => "Fix the underlying error and try again"] } }

/-- `handleGenerationError`: process the raw error and return the
fallback result. -/
def handleGenerationError (error : JsError) (now : Nat) : GenerationResult :=
  createFallbackResult (processError error now) now

end ErrorHandler

/-! ## `GenerationOrchestrator` (`enterprise/core/GenerationOrchestrator.ts`)

The seven phase bodies delegate to collaborator classes
(`ComponentAnalyzer`, the framework generators, `OptimizationEngine`,
`QualityAssurance`, the documentation/test generators); the orchestrator
itself only sequences them and contains failures.  The phases are
therefore abstracted as `Except`-valued functions — `executePhase`
records metrics (observability, not modelled) and rethrows, so a
phase's exception propagates exactly like an `Except.error` through the
sequential binds below. -/

structure GenerationPipeline where
  analyze : Except JsError AnalysisResult
  generate : AnalysisResult → Except JsError (List GeneratedComponent)
  optimize : List GeneratedComponent → Except JsError (List GeneratedComponent)
  validate : List GeneratedComponent → Except JsError QualityReport
  document : List GeneratedComponent → Except JsError DocumentationOutput
  test : List GeneratedComponent → Except JsError TestOutput
  package : AnalysisResult → List GeneratedComponent →
    Except JsError GenerationResult

namespace GenerationOrchestrator

/-- The phase sequence inside the `try` block of `generateEnterprise`
(each phase consumes the prior phase's output; the validate, document
and test results are recomputed by `package` and not threaded). -/
def runPipeline (p : GenerationPipeline) : Except JsError GenerationResult := do
  let analysis ← p.analyze
  let components ← p.generate analysis
  let optimized ← p.optimize components
  let _quality ← p.validate optimized
  let _documentation ← p.document optimized
  let _tests ← p.test optimized
  p.package analysis optimized

/-- `generateEnterprise`: run the phases; on any thrown error, return
`errorHandler.handleGenerationError(error)` instead of propagating. -/
def generateEnterprise (p : GenerationPipeline) (now : Nat) :
    GenerationResult :=
  match runPipeline p with
  | .ok result => result
  | .error e => ErrorHandler.handleGenerationError e now

end GenerationOrchestrator

/-! ## `FrameworkGeneratorFactory`
(`enterprise/generators/FrameworkGeneratorFactory.ts`) -/

/-- The concrete strategy selected by the factory. -/
inductive FrameworkGeneratorKind : Type where
  | react | vue | angular | svelte
  deriving Repr, DecidableEq

/-- `createGenerator`: a pure switch on `config.framework`; the default
arm throws `new Error(\x60Unsupported framework: ...\x60)`. -/
def FrameworkGeneratorFactory.createGenerator
    (cfg : EnterpriseGenerationConfig) :
    Except JsError FrameworkGeneratorKind :=
  if cfg.framework = "react" then .ok .react
  else if cfg.framework = "vue" then .ok .vue
  else if cfg.framework = "angular" then .ok .angular
  else if cfg.framework = "svelte" then .ok .svelte
  else .error
    { name := "Error"
      message := some ("Unsupported framework: " ++ cfg.framework)
      stack := none }

/-! ## Legacy `EnterpriseCodeGenerator` JSX emission
(`enterprise-code-generator.ts`) -/

namespace EnterpriseCodeGenerator

/-- `extractEnterpriseProps` (source body: returns `[]`). -/
def extractEnterpriseProps (_node : FigmaNode) : List PropField :=
  []

/-- `generateEnterpriseChildren` (source body: returns `''`). -/
def generateEnterpriseChildren (_node : FigmaNode) : String :=
  ""

/-- `generateRequiredHooks` (source body: returns `[]`). -/
def generateRequiredHooks (_node : FigmaNode) : List String :=
  []

/-- `generateEnterpriseImports` (source body: returns `[]`). -/
def generateEnterpriseImports (_node : FigmaNode) : List String :=
  []

/-- The legacy class's `generatePropsInterface` (no `className` /
`children` lines, `p.type || 'any'`). -/
def generatePropsInterface (props : List PropField) (componentName : String) :
    String :=
  "interface " ++ componentName ++ "Props \x7b\n  " ++
    joinSep "\n  " (props.map (fun p =>
      p.name ++ "?: " ++ (if p.type = "" then "any" else p.type) ++ ";")) ++
    "\n\x7d"

/-- `generateComponentExports`. -/
def generateComponentExports (componentName : String) : String :=
  "export default " ++ componentName ++ ";"

/-- `generateReactComponent`. -/
def generateReactComponent (cfg : EnterpriseGenerationConfig)
    (componentName : String) (props : List PropField) (children : String)
    (hooks : List String) (imports : List String) : String :=
  let propsInterface :=
    if cfg.typescript then generatePropsInterface props componentName else ""
  let componentSignature :=
    if cfg.typescript then
      "export const " ++ componentName ++ ": React.FC<" ++ componentName ++
        "Props> = (\x7b " ++ joinSep ", " (props.map (·.name)) ++ " \x7d)"
    else
      "export const " ++ componentName ++ " = (\x7b " ++
        joinSep ", " (props.map (·.name)) ++ " \x7d)"
  let hooksSection :=
    if hooks.length > 0 then "\n  // Hooks\n  " ++ joinSep "\n  " hooks ++ "\n"
    else ""
  let themeHook :=
    if cfg.enableThemeSupport then "\n  const theme = useTheme();" else ""
  let i18nHook :=
    if cfg.enableI18n then "\n  const \x7b t \x7d = useTranslation();" else ""
  joinSep "\n" imports ++ "\n" ++
    (if cfg.enableThemeSupport then
      "import \x7b useTheme \x7d from '../hooks/useTheme';" else "") ++ "\n" ++
    (if cfg.enableI18n then
      "import \x7b useTranslation \x7d from 'react-i18next';" else "") ++ "\n\n" ++
    propsInterface ++ "\n" ++
    componentSignature ++ " => \x7b" ++ hooksSection ++ themeHook ++ i18nHook ++
    "\n  return (\n    " ++ children ++ "\n  );\n\x7d;\n\n" ++
    generateComponentExports componentName

/-- `generateVueComponent`. -/
def generateVueComponent (_componentName : String) (_props : List PropField)
    (children : String) : String :=
  "<template>\n  " ++ children ++
    "\n</template>\n\n<script setup lang=\"ts\">\n// Vue 3 Composition API\n</script>"

/-- `generateAngularComponent`. -/
def generateAngularComponent (componentName : String)
    (_props : List PropField) (children : String) : String :=
  "import \x7b Component \x7d from '@angular/core';\n\n@Component(\x7b\n  selector: 'app-" ++
    jsToLowerString componentName ++ "',\n  template: `" ++ children ++
    "`\n\x7d)\nexport class " ++ componentName ++ "Component \x7b\x7d"

/-- `generateEnterpriseJSX`: an `if`/`else if` chain on
`config.framework` whose final fallthrough silently returns the React
emission (including for `'svelte'` and for values outside the enum). -/
def generateEnterpriseJSX (cfg : EnterpriseGenerationConfig)
    (node : FigmaNode) (componentName : String) : String :=
  let props := extractEnterpriseProps node
  let children := generateEnterpriseChildren node
  let hooks := generateRequiredHooks node
  let imports := generateEnterpriseImports node
  if cfg.framework = "react" then
    generateReactComponent cfg componentName props children hooks imports
  else if cfg.framework = "vue" then
    generateVueComponent componentName props children
  else if cfg.framework = "angular" then
    generateAngularComponent componentName props children
  else
    generateReactComponent cfg componentName props children hooks imports

end EnterpriseCodeGenerator

/-! ## `CSSArchitectManager` (`css-architect-manager.ts`)

Style facts are JavaScript object literals; they are modelled as
insertion-ordered key/value lists with object-spread update semantics
(`objSet`/`objMerge`): assigning an existing key updates it in place,
a new key is appended.  A value of `none` is an explicitly-`undefined`
property. -/

/-- An insertion-ordered JavaScript object of style properties. -/
abbrev StyleObj := List (String × Option String)

/-- Object-literal assignment: update in place or append. -/
def objSet (o : StyleObj) (k : String) (v : Option String) : StyleObj :=
  if o.any (fun p => p.1 = k) then
    o.map (fun p => if p.1 = k then (k, v) else p)
  else o ++ [(k, v)]

/-- Object spread `{...a, ...b}`. -/
def objMerge (a b : StyleObj) : StyleObj :=
  b.foldl (fun acc p => objSet acc p.1 p.2) a

/-- The character class `[A-Z]`. -/
def isUpperCh (c : Char) : Bool :=
  65 ≤ c.toNat && c.toNat ≤ 90

/-- The character class `[a-z0-9]`. -/
def isLowerDigitCh (c : Char) : Bool :=
  (97 ≤ c.toNat && c.toNat ≤ 122) || (48 ≤ c.toNat && c.toNat ≤ 57)

/-- Matcher for `/([a-z0-9]|(?=[A-Z]))([A-Z])/g` with replacement
`'$1-$2'`: a dash is inserted before any capital that follows a
lower/digit character, and before any other capital via the zero-width
lookahead alternative. -/
def matchCamelDash (l : List Char) : Option (List Char × List Char) :=
  match l with
  | a :: b :: rest =>
    if isLowerDigitCh a && isUpperCh b then some ([a, '-', b], rest)
    else if isUpperCh a then some (['-', a], b :: rest)
    else none
  | [a] => if isUpperCh a then some (['-', a], []) else none
  | [] => none

/-- `camelToKebab`. -/
def camelToKebab (s : String) : String :=
  jsToLowerString (jsReplaceAll matchCamelDash s)

/-- Matcher for `/([A-Z])/g` with replacement `'-$1'`. -/
def matchUpperDash (l : List Char) : Option (List Char × List Char) :=
  match l with
  | a :: rest => if isUpperCh a then some (['-', a], rest) else none
  | [] => none

structure CSSArchitectureConfig where
  architecture : String
  enableModularScale : Bool
  enableCustomProperties : Bool
  enableLogicalProperties : Bool
  enableContainerQueries : Bool
  enableLayerCascade : Bool
  deriving Repr, DecidableEq

/-- The manager's two fields: the constructor argument `architecture`
and the config (defaults, all `true`, merged with the optional
override). -/
structure CSSArchitectManagerState where
  architecture : String
  config : CSSArchitectureConfig
  deriving Repr, DecidableEq

/-- `new CSSArchitectManager(architecture)` — the no-override
construction used by `EnterpriseCodeGenerator` (all feature flags keep
their `true` defaults, in particular `enableContainerQueries`). -/
def mkCSSArchitectManager (architecture : String) :
    CSSArchitectManagerState :=
  { architecture := architecture
    config :=
      { architecture := architecture
        enableModularScale := true
        enableCustomProperties := true
        enableLogicalProperties := true
        enableContainerQueries := true
        enableLayerCascade := true } }

namespace CSSArchitectManager

/-- `colorToCSS`. -/
def colorToCSS (color : FigmaColor) (opacity : Option ℚ) : String :=
  let alpha := match opacity with | some o => o | none => color.a
  "rgba(" ++ intToJsString (jsRound (color.r * 255)) ++ ", " ++
    intToJsString (jsRound (color.g * 255)) ++ ", " ++
    intToJsString (jsRound (color.b * 255)) ++ ", " ++
    ratToJsString alpha ++ ")"

/-- `getDisplayValue`. -/
def getDisplayValue (node : FigmaNode) : String :=
  if sTruthy node.layoutMode then "flex"
  else if node.type = "TEXT" then "inline-block"
  else "block"

/-- `extractDimensions`. -/
def extractDimensions (node : FigmaNode) : StyleObj :=
  match node.absoluteBoundingBox with
  | some box =>
    [("width", some (ratToJsString box.width ++ "px")),
     ("height", some (ratToJsString box.height ++ "px"))]
  | none => []

/-- `extractColors` (the architect's copy: `backgroundColor` from the
node background, overwritten by the first fill when it is SOLID). -/
def extractColors (node : FigmaNode) : StyleObj :=
  let colors : StyleObj :=
    match node.backgroundColor with
    | some bg => [("backgroundColor", some (colorToCSS bg none))]
    | none => []
  match node.fills with
  | fill :: _ =>
    if fill.type = "SOLID" then
      match fill.color with
      | some c => objSet colors "backgroundColor"
          (some (colorToCSS c fill.opacity))
      | none => colors
    else colors
  | [] => colors

/-- `extractPadding`. -/
def extractPadding (node : FigmaNode) : String :=
  ratToJsString (node.paddingTop.getD 0) ++ "px " ++
    ratToJsString (node.paddingRight.getD 0) ++ "px " ++
    ratToJsString (node.paddingBottom.getD 0) ++ "px " ++
    ratToJsString (node.paddingLeft.getD 0) ++ "px"

/-- `extractSpacing` (the architect's copy). -/
def extractSpacing (node : FigmaNode) : StyleObj :=
  (if qTruthy node.paddingLeft || qTruthy node.paddingRight ||
      qTruthy node.paddingTop || qTruthy node.paddingBottom then
    [("padding", some (extractPadding node))]
  else []) ++
  (if qTruthy node.itemSpacing then
    [("gap", some (ratToJsString (node.itemSpacing.getD 0) ++ "px"))]
  else [])

/-- `extractBorders`. -/
def extractBorders (node : FigmaNode) : StyleObj :=
  (if qTruthy node.cornerRadius then
    [("borderRadius",
      some (ratToJsString (node.cornerRadius.getD 0) ++ "px"))]
  else []) ++
  (match node.strokes with
  | stroke :: _ =>
    if qTruthy node.strokeWeight then
      match stroke.color with
      | some c =>
        [("border", some (ratToJsString (node.strokeWeight.getD 0) ++
          "px solid " ++ colorToCSS c none))]
      | none => []
    else []
  | [] => [])

/-- `effectToCSS`. -/
def effectToCSS (effect : FigmaEffect) : String :=
  if effect.type = "DROP_SHADOW" then
    ratToJsString ((effect.offset.map (·.x)).getD 0) ++ "px " ++
      ratToJsString ((effect.offset.map (·.y)).getD 0) ++ "px " ++
      ratToJsString (effect.radius.getD 0) ++ "px " ++
      (match effect.color with
      | some c => colorToCSS c none
      | none => "rgba(0,0,0,0.25)")
  else ""

/-- `extractShadows`. -/
def extractShadows (node : FigmaNode) : StyleObj :=
  match node.effects with
  | [] => []
  | _ =>
    let shadowEffects := node.effects.filter fun e =>
      e.type = "DROP_SHADOW" && e.visible ≠ some false
    if shadowEffects.isEmpty then []
    else [("boxShadow", some (joinSep ", " (shadowEffects.map effectToCSS)))]

/-- `extractTypography` (the architect's copy). -/
def extractTypography (node : FigmaNode) : StyleObj :=
  match node.style with
  | some st =>
    if node.type = "TEXT" then
      [("fontFamily", some ("\"" ++ st.fontFamily ++ "\", sans-serif")),
       ("fontSize", some (ratToJsString st.fontSize ++ "px")),
       ("lineHeight", some (ratToJsString st.lineHeightPx ++ "px")),
       ("letterSpacing", some (ratToJsString st.letterSpacing ++ "px"))] ++
      (match st.fills with
      | f :: _ =>
        match f.color with
        | some c => [("color", some (colorToCSS c none))]
        | none => []
      | [] => [])
    else []
  | none => []

/-- `isInteractive`. -/
def isInteractive (node : FigmaNode) : Bool :=
  let name := jsToLowerString node.name
  jsIncludes name "button" || jsIncludes name "link" ||
    jsIncludes name "click" || jsIncludes name "interactive"

/-- `generateInteractionStyles`: the values are nested object literals;
interpolated into a CSS template they stringify to `[object Object]`,
which is exactly what the emitted text contains. -/
def generateInteractionStyles (node : FigmaNode) : StyleObj :=
  if isInteractive node then
    [("&:hover", some "[object Object]"),
     ("&:active", some "[object Object]"),
     ("&:focus", some "[object Object]")]
  else []

/-- `extractBaseStyles`. -/
def extractBaseStyles (node : FigmaNode) : StyleObj :=
  objMerge (objMerge (objMerge (objMerge (objMerge
    [("display", some (getDisplayValue node)),
     ("position", some "relative")]
    (extractDimensions node)) (extractColors node)) (extractSpacing node))
    (extractBorders node)) (extractShadows node)

/-- `extractLayoutStyles`. -/
def extractLayoutStyles (node : FigmaNode) : StyleObj :=
  objMerge
    [("display", some (getDisplayValue node)),
     ("flexDirection",
      some (if node.layoutMode = some "HORIZONTAL" then "row" else "column")),
     ("gap",
      if qTruthy node.itemSpacing then
        some (ratToJsString (node.itemSpacing.getD 0) ++ "px")
      else none),
     ("padding", some (extractPadding node))]
    (extractDimensions node)

/-- `extractModuleStyles`. -/
def extractModuleStyles (node : FigmaNode) : StyleObj :=
  objMerge (objMerge (objMerge (extractColors node) (extractBorders node))
    (extractShadows node)) (extractTypography node)

/-- `extractComponentStyles`. -/
def extractComponentStyles (node : FigmaNode) : StyleObj :=
  objMerge (extractBaseStyles node) (generateInteractionStyles node)

/-- `extractBlockStyles`. -/
def extractBlockStyles (node : FigmaNode) : StyleObj :=
  objMerge (objMerge (extractColors node) (extractTypography node))
    (extractBorders node)

/-- `extractUtilities`: `(name, property, value)` triples built from the
spacing object's entries. -/
def extractUtilities (node : FigmaNode) : List (String × String × String) :=
  (extractSpacing node).flatMap fun p =>
    [("p-" ++ p.1, "padding", optToJs p.2),
     ("m-" ++ p.1, "margin", optToJs p.2)]

/-- `stylesToCSS` (drops `undefined` values, kebab-cases the keys). -/
def stylesToCSS (styles : StyleObj) : String :=
  joinSep "\n" ((styles.filter (fun p => p.2.isSome)).map fun p =>
    "  " ++ camelToKebab p.1 ++ ": " ++ optToJs p.2 ++ ";")

/-- `generateCustomProperties` (note: no `undefined` filter here, and a
different dash-insertion regex). -/
def generateCustomProperties (styles : StyleObj) : String :=
  joinSep "\n" (styles.map fun p =>
    "  --" ++ jsToLowerString (jsReplaceAll matchUpperDash p.1) ++ ": " ++
      optToJs p.2 ++ ";")

/-- `toBEMBlock` (the capital-dash replace runs after `toLowerCase`, so
it is a no-op; one leading dash is stripped). -/
def toBEMBlock (componentName : String) : String :=
  let s := jsReplaceAll matchUpperDash (jsToLowerString componentName)
  match s.data with
  | '-' :: rest => String.mk rest
  | l => String.mk l

/-- `generateCSSHeader`. -/
def generateCSSHeader (st : CSSArchitectManagerState)
    (architectureName : String) : String :=
  if !st.config.enableLayerCascade then
    "/* " ++ architectureName ++ " */\n\n"
  else
    "/* " ++ architectureName ++
      " */\n@layer reset, base, layout, components, utilities, overrides;\n\n"

/-- `generateBlockStyles`. -/
def generateBlockStyles (st : CSSArchitectManagerState) (blockName : String)
    (styles : StyleObj) : String :=
  "\n/* Block: " ++ blockName ++ " */\n." ++ blockName ++ " \x7b\n" ++
    stylesToCSS styles ++ "\n" ++
    (if st.config.enableCustomProperties then generateCustomProperties styles
     else "") ++ "\n\x7d\n"

/-- A BEM element/modifier: a name and its styles. -/
structure BEMPart where
  name : String
  styles : StyleObj
  deriving Repr, DecidableEq

/-- `extractElements`. -/
def extractElements (node : FigmaNode) : List BEMPart :=
  node.children.map fun child => ⟨child.name, extractBaseStyles child⟩

/-- `hasVariations`. -/
def hasVariations (node : FigmaNode) (type : String) : Bool :=
  jsIncludes (jsToLowerString node.name) type

/-- `extractModifiers`. -/
def extractModifiers (node : FigmaNode) : List BEMPart :=
  (if hasVariations node "size" then
    [⟨"small", [("fontSize", some "0.875rem"), ("padding", some "0.5rem")]⟩,
     ⟨"large", [("fontSize", some "1.125rem"), ("padding", some "1rem")]⟩]
  else []) ++
  [⟨"disabled", [("opacity", some "0.5"), ("pointerEvents", some "none")]⟩]

/-- `generateElementStyles`. -/
def generateElementStyles (blockName : String) (element : BEMPart) : String :=
  let elementName := jsReplaceWs "-" (jsToLowerString element.name)
  "\n/* Element: " ++ blockName ++ "__" ++ elementName ++ " */\n." ++
    blockName ++ "__" ++ elementName ++ " \x7b\n" ++
    stylesToCSS element.styles ++ "\n\x7d\n"

/-- `generateModifierStyles`. -/
def generateModifierStyles (blockName : String) (modifier : BEMPart) :
    String :=
  let modifierName := jsReplaceWs "-" (jsToLowerString modifier.name)
  "\n/* Modifier: " ++ blockName ++ "--" ++ modifierName ++ " */\n." ++
    blockName ++ "--" ++ modifierName ++ " \x7b\n" ++
    stylesToCSS modifier.styles ++ "\n\x7d\n"

/-- `generateMediaQueries`: the two fixed 768px/1024px breakpoints. -/
def generateMediaQueries (blockName : String) (_node : FigmaNode) : String :=
  "\n/* Responsive Styles */\n@media (min-width: 768px) \x7b\n  ." ++
    blockName ++
    " \x7b\n    /* Tablet styles */\n  \x7d\n\x7d\n\n@media (min-width: 1024px) \x7b\n  ." ++
    blockName ++ " \x7b\n    /* Desktop styles */\n  \x7d\n\x7d\n"

/-- `generateContainerQueries`: the three fixed 300/500/700px
breakpoints (a constant; the node is unused). -/
def generateContainerQueries (_node : FigmaNode) : String :=
  "\n/* Container Queries */\n@container (min-width: 300px) \x7b\n  /* Small container styles */\n\x7d\n\n@container (min-width: 500px) \x7b\n  /* Medium container styles */\n\x7d\n\n@container (min-width: 700px) \x7b\n  /* Large container styles */\n\x7d\n"

/-- `generateResponsiveStyles`: media queries unless
`enableContainerQueries` is set, container queries otherwise — a
two-way selection inside this function. -/
def generateResponsiveStyles (st : CSSArchitectManagerState)
    (blockName : String) (node : FigmaNode) : String :=
  if !st.config.enableContainerQueries then
    generateMediaQueries blockName node
  else
    generateContainerQueries node

/-- `generateBEMCSS` (header, block, elements, modifiers, responsive). -/
def generateBEMCSS (st : CSSArchitectManagerState) (node : FigmaNode)
    (componentName : String) : String :=
  let blockName := toBEMBlock componentName
  generateCSSHeader st "BEM Architecture" ++
    generateBlockStyles st blockName (extractBaseStyles node) ++
    String.join ((extractElements node).map (generateElementStyles blockName)) ++
    String.join ((extractModifiers node).map (generateModifierStyles blockName)) ++
    generateResponsiveStyles st blockName node

/-- `generateSMACSBase`. -/
def generateSMACSBase (_node : FigmaNode) : String :=
  "\n/* Base Rules */\n/* Minimal base styles if needed */\n"

/-- `generateSMACSLayout`. -/
def generateSMACSLayout (node : FigmaNode) (componentName : String) : String :=
  "\n/* Layout Rules */\n.l-" ++ jsToLowerString componentName ++ " \x7b\n" ++
    stylesToCSS (extractLayoutStyles node) ++ "\n\x7d\n"

/-- `generateSMACSModule`. -/
def generateSMACSModule (node : FigmaNode) (componentName : String) : String :=
  let className := jsToLowerString componentName
  "\n/* Module Rules */\n." ++ className ++ " \x7b\n" ++
    stylesToCSS (extractModuleStyles node) ++ "\n\x7d\n\n." ++ className ++
    "-header \x7b\n  /* Header styles */\n\x7d\n\n." ++ className ++
    "-body \x7b\n  /* Body styles */\n\x7d\n\n." ++ className ++
    "-footer \x7b\n  /* Footer styles */\n\x7d\n"

/-- `generateSMACSState`. -/
def generateSMACSState (_node : FigmaNode) (_componentName : String) :
    String :=
  "\n/* State Rules */\n.is-hidden \x7b\n  display: none;\n\x7d\n\n.is-disabled \x7b\n  opacity: 0.5;\n  pointer-events: none;\n\x7d\n\n.is-active \x7b\n  /* Active state styles */\n\x7d\n\n.is-loading \x7b\n  /* Loading state styles */\n\x7d\n"

/-- `generateSMACSTheme`. -/
def generateSMACSTheme (_node : FigmaNode) (componentName : String) :
    String :=
  let className := jsToLowerString componentName
  "\n/* Theme Rules */\n.theme-dark ." ++ className ++
    " \x7b\n  /* Dark theme styles */\n\x7d\n\n.theme-light ." ++ className ++
    " \x7b\n  /* Light theme styles */\n\x7d\n"

/-- `generateSMACSS`. -/
def generateSMACSS (st : CSSArchitectManagerState) (node : FigmaNode)
    (componentName : String) : String :=
  generateCSSHeader st "SMACSS Architecture" ++
    generateSMACSBase node ++
    generateSMACSLayout node componentName ++
    generateSMACSModule node componentName ++
    generateSMACSState node componentName ++
    generateSMACSTheme node componentName

/-- `generateCubeComposition` (embeds the container queries inside the
composition block when the flag is on). -/
def generateCubeComposition (st : CSSArchitectManagerState)
    (node : FigmaNode) (componentName : String) : String :=
  "\n/* Composition Layer - Layout and Structure */\n." ++
    jsToLowerString componentName ++ " \x7b\n" ++
    stylesToCSS (extractLayoutStyles node) ++ "\n" ++
    (if st.config.enableContainerQueries then generateContainerQueries node
     else "") ++ "\n\x7d\n"

/-- `generateCubeUtilities`. -/
def generateCubeUtilities (node : FigmaNode) : String :=
  "\n/* Utilities Layer - Single Purpose Classes */\n" ++
    joinSep "\n" ((extractUtilities node).map fun u =>
      "\n." ++ u.1 ++ " \x7b\n  " ++ u.2.1 ++ ": " ++ u.2.2 ++
        " !important;\n\x7d") ++ "\n"

/-- `generateCubeBlock`. -/
def generateCubeBlock (node : FigmaNode) (componentName : String) : String :=
  "\n/* Block Layer - Component Styles */\n." ++
    jsToLowerString componentName ++ " \x7b\n" ++
    stylesToCSS (extractBlockStyles node) ++ "\n\x7d\n"

/-- `generateCubeExceptions`. -/
def generateCubeExceptions (_node : FigmaNode) (componentName : String) :
    String :=
  let className := jsToLowerString componentName
  "\n/* Exception Layer - Context-Specific Overrides */\n." ++ className ++
    "[data-state=\"loading\"] \x7b\n  /* Loading state overrides */\n\x7d\n\n." ++
    className ++
    "[data-variant=\"primary\"] \x7b\n  /* Primary variant overrides */\n\x7d\n"

/-- `generateCubeCSS`. -/
def generateCubeCSS (st : CSSArchitectManagerState) (node : FigmaNode)
    (componentName : String) : String :=
  generateCSSHeader st "CUBE CSS Architecture" ++
    generateCubeComposition st node componentName ++
    generateCubeUtilities node ++
    generateCubeBlock node componentName ++
    generateCubeExceptions node componentName

/-- `generateArchitecturalCSS`: the four-way switch.  The `itcss` arm
calls `Array.prototype.map` on the plain objects returned by
`extractColors`/`extractSpacing`/`extractTypography`
(`generateITCSSSettings`), which throws a `TypeError` at runtime; that
arm is therefore an `Except.error`. -/
def generateArchitecturalCSS (st : CSSArchitectManagerState)
    (node : FigmaNode) (componentName : String) : Except JsError String :=
  if st.architecture = "bem" then .ok (generateBEMCSS st node componentName)
  else if st.architecture = "smacss" then
    .ok (generateSMACSS st node componentName)
  else if st.architecture = "itcss" then
    .error
      { name := "TypeError"
        message := some "colors.map is not a function"
        stack := none }
  else if st.architecture = "cube-css" then
    .ok (generateCubeCSS st node componentName)
  else .ok (generateBEMCSS st node componentName)

end CSSArchitectManager

namespace EnterpriseCodeGenerator

/-- The legacy class's `generateResponsiveCSS` (a constant: fixed
768px/1024px media queries on the `.component` selector). -/
def generateResponsiveCSS (_node : FigmaNode) : String :=
  "\n@media (max-width: 768px) \x7b\n  .component \x7b padding: 1rem; \x7d\n\x7d\n@media (min-width: 1024px) \x7b\n  .component \x7b padding: 2rem; \x7d\n\x7d"

/-- The legacy class's `generateThemeCSS`. -/
def generateThemeCSS (_node : FigmaNode) : String :=
  "\n.component \x7b\n  color: var(--text-primary);\n  background: var(--bg-primary);\n\x7d\n[data-theme=\"dark\"] .component \x7b\n  color: var(--text-primary-dark);\n  background: var(--bg-primary-dark);\n\x7d"

/-- The legacy class's `generateAnimationCSS`. -/
def generateAnimationCSS (_node : FigmaNode) : String :=
  "\n.component \x7b\n  transition: all 0.3s ease;\n\x7d\n.component:hover \x7b\n  transform: translateY(-2px);\n\x7d"

/-- `generateEnterpriseCSS`: architectural CSS (from the architect
constructed with `new CSSArchitectManager(config.cssArchitecture)`),
then the fixed responsive media queries, optional theme CSS, and the
animation CSS, trimmed. -/
def generateEnterpriseCSS (cfg : EnterpriseGenerationConfig)
    (node : FigmaNode) (componentName : String) : Except JsError String := do
  let baseCSS ← CSSArchitectManager.generateArchitecturalCSS
    (mkCSSArchitectManager cfg.cssArchitecture) node componentName
  let responsiveCSS := generateResponsiveCSS node
  let themeCSS := if cfg.enableThemeSupport then generateThemeCSS node else ""
  let animationCSS := generateAnimationCSS node
  return jsTrim (baseCSS ++ "\n\n" ++ responsiveCSS ++ "\n\n" ++ themeCSS ++
    "\n\n" ++ animationCSS)

end EnterpriseCodeGenerator

/-! ## Concrete fixtures used by witnesses and counterexamples -/

/-- A concrete thrown error. -/
def errFixture : JsError :=
  { name := "Error", message := some "Cannot read nodes", stack := none }

/-- A trivial empty analysis result. -/
def analysisFixture : AnalysisResult :=
  { componentCount := 0
    complexity := "simple"
    designTokens := ⟨[], [], [], []⟩
    estimatedTime := 0 }

/-- A trivial successful generation result. -/
def resultFixture : GenerationResult :=
  { components := []
    designSystem := ⟨"", [], "", ""⟩
    documentation := ⟨"", [], "", ""⟩
    tests := ⟨[], [], [], []⟩
    performance := ⟨0, 0, 0, 0, [], none⟩
    quality := ⟨0, 0, 0, 0, 0, []⟩ }

/-- A pipeline whose analysis phase throws `errFixture` (the later
phases would succeed). -/
def failingPipeline : GenerationPipeline :=
  { analyze := .error errFixture
    generate := fun _ => .ok []
    optimize := fun cs => .ok cs
    validate := fun _ => .ok ⟨0, 0, 0, 0, 0, []⟩
    document := fun _ => .ok ⟨"", [], "", ""⟩
    test := fun _ => .ok ⟨[], [], [], []⟩
    package := fun _ _ => .ok resultFixture }

/-- A concrete optimization configuration (the source defaults). -/
def optCfgFixture : OptimizationConfig :=
  { enableCSSMinification := true
    enableTreeShaking := true
    enableComponentDeduplication := true
    enableAssetOptimization := true
    enableLazyLoading := true
    maxBundleSize := 500
    targetPerformanceScore := 90 }

/-- A concrete configuration whose `framework` is the out-of-enum
runtime value `"sveltekit"`. -/
def cfgSveltekit : EnterpriseGenerationConfig :=
  { optimization := optCfgFixture
    framework := "sveltekit"
    styling := "tailwind"
    typescript := true
    componentArchitecture := "atomic"
    cssArchitecture := "bem"
    enableDesignSystem := true
    enableComponentLibrary := true
    enableThemeSupport := false
    enableI18n := false
    enableTesting := true
    enableStorybook := true
    enableDocumentation := true
    enforceAccessibility := true
    enforcePerformance := true
    enforceCodeStandards := true
    maxComponentsPerBundle := 50
    enableCodeSplitting := true
    enableTreeShaking := true
    enableLazyLoading := true }

/-- A plain frame node. -/
def nodeFixture : FigmaNode :=
  plainNode "1:1" "Widget" "FRAME"

/-- A generated component with the given texts and inert metadata. -/
def mkComp (id name jsx css : String) : GeneratedComponent :=
  { id := id
    name := name
    jsx := jsx
    css := css
    typescript := none
    accessibility := ⟨100, [], [], "AA"⟩
    responsive := ⟨"", "", "", false⟩
    metadata :=
      { figmaNodeId := id
        componentType := "component"
        complexity := "simple"
        estimatedAccuracy := 85
        generationTime := 0
        dependencies := [] } }

/-- A single oversized component: 1025 one-byte characters of JSX. -/
def bigComp : GeneratedComponent :=
  mkComp "c1" "Big" (String.mk (List.replicate 1025 'x')) ""

/-- The default optimization configuration with a 1 KB budget. -/
def cfgKB1 : OptimizationConfig :=
  { optCfgFixture with maxBundleSize := 1 }

/-- Components whose `jsx + css` texts collide under the rolling hash
(`"Aa"` and `"BB"` both hash to `"1mo"`); `compBB1` and `compBB2` are
textually identical components with distinct ids. -/
def compAa : GeneratedComponent := mkComp "a1" "Alpha" "Aa" ""

/-- See `compAa`. -/
def compBB1 : GeneratedComponent := mkComp "b1" "Beta" "BB" ""

/-- See `compAa`. -/
def compBB2 : GeneratedComponent := mkComp "b2" "Gamma" "BB" ""

/-- See `compAa`. -/
def compBB3 : GeneratedComponent := mkComp "b3" "Delta" "BB" ""

/-- The default configuration with the supported `react` framework. -/
def cfgReact : EnterpriseGenerationConfig :=
  { cfgSveltekit with framework := "react" }

/-- An architect state whose `enableContainerQueries` flag is off (the
only way to reach the media-query branch). -/
def stMediaFixture : CSSArchitectManagerState :=
  { architecture := "bem"
    config :=
      { architecture := "bem"
        enableModularScale := true
        enableCustomProperties := true
        enableLogicalProperties := true
        enableContainerQueries := false
        enableLayerCascade := true } }

/-- `^[A-Z][A-Za-z0-9]*$` on a character list. -/
def regexUpperAlnum : List Char → Bool
  | [] => false
  | c :: rest => (65 ≤ c.toNat && c.toNat ≤ 90) && rest.all isAsciiAlnum

/-- The regular expression `^[A-Z][A-Za-z0-9]*$` as a Boolean predicate. -/
def matchesComponentNameRegex (s : String) : Bool :=
  regexUpperAlnum s.data

end Compass

namespace Compass

/-! ## Theorems -/

/-! ### Character-level facts used by the sanitization proofs -/

theorem toUpper_toNat_of_letter {c : Char}
    (h : 65 ≤ c.toNat ∧ c.toNat ≤ 90 ∨ 97 ≤ c.toNat ∧ c.toNat ≤ 122) :
    65 ≤ c.toUpper.toNat ∧ c.toUpper.toNat ≤ 90 := by
  show 65 ≤ (if c.toNat ≥ 97 ∧ c.toNat ≤ 122 then Char.ofNat (c.toNat - 32)
      else c).toNat ∧
    (if c.toNat ≥ 97 ∧ c.toNat ≤ 122 then Char.ofNat (c.toNat - 32)
      else c).toNat ≤ 90
  split
  · next hif =>
    have hval : (Char.ofNat (c.toNat - 32)).toNat = c.toNat - 32 := by
      unfold Char.ofNat
      rw [dif_pos]
      · rfl
      · left
        have := hif.2
        omega
    rw [hval]
    omega
  · next hif =>
    rcases h with h | h
    · exact h
    · exact absurd h hif

theorem toUpper_of_upper {c : Char} (h1 : 65 ≤ c.toNat) (h2 : c.toNat ≤ 90) :
    c.toUpper = c := by
  show (if c.toNat ≥ 97 ∧ c.toNat ≤ 122 then Char.ofNat (c.toNat - 32)
      else c) = c
  rw [if_neg]
  omega

theorem alnum_of_letter {c : Char}
    (h : 65 ≤ c.toNat ∧ c.toNat ≤ 90 ∨ 97 ≤ c.toNat ∧ c.toNat ≤ 122) :
    isAsciiAlnum c = true := by
  simp only [isAsciiAlnum, Bool.or_eq_true, Bool.and_eq_true, decide_eq_true_eq]
  omega

theorem letter_or_digit_of_alnum {c : Char} (h : isAsciiAlnum c = true)
    (hd : ¬ isAsciiDigit c = true) :
    65 ≤ c.toNat ∧ c.toNat ≤ 90 ∨ 97 ≤ c.toNat ∧ c.toNat ≤ 122 := by
  simp only [isAsciiAlnum, Bool.or_eq_true, Bool.and_eq_true, decide_eq_true_eq] at h
  simp only [isAsciiDigit, Bool.and_eq_true, decide_eq_true_eq] at hd
  omega

/-! ### Sanitization (claim C2) -/

theorem regex_sanitizeChars (l : List Char) :
    regexUpperAlnum (sanitizeChars l) = true := by
  unfold sanitizeChars
  have hall : ∀ c ∈ l.filter isAsciiAlnum, isAsciiAlnum c = true := by
    intro c hc
    exact List.of_mem_filter hc
  cases hf : l.filter isAsciiAlnum with
  | nil => decide
  | cons c rest =>
    have hc : isAsciiAlnum c = true := by
      refine hall c ?_
      rw [hf]; exact List.mem_cons_self _ _
    have hrest : rest.all isAsciiAlnum = true := by
      rw [List.all_eq_true]
      intro x hx
      refine hall x ?_
      rw [hf]; exact List.mem_cons_of_mem _ hx
    by_cases hd : isAsciiDigit c = true
    · rw [prefixLeadingDigit, if_pos hd]
      have hshape : "Component".data ++ c :: rest
          = 'C' :: ("omponent".data ++ c :: rest) := rfl
      rw [hshape, upperFirst]
      rw [if_neg (by simp [List.isEmpty])]
      simp only [regexUpperAlnum, Bool.and_eq_true, decide_eq_true_eq,
        List.all_eq_true]
      have homp : ∀ x ∈ ("omponent".data : List Char), isAsciiAlnum x = true := by
        decide
      refine ⟨by rw [jsToUpper]; decide, ?_⟩
      intro x hx
      rcases List.mem_append.mp hx with hx | hx
      · exact homp x hx
      · rcases List.mem_cons.mp hx with rfl | hx
        · simp only [isAsciiDigit, Bool.and_eq_true, decide_eq_true_eq] at hd
          simp only [isAsciiAlnum, Bool.or_eq_true, Bool.and_eq_true,
            decide_eq_true_eq]
          omega
        · exact List.all_eq_true.mp hrest x hx
    · have hlet := letter_or_digit_of_alnum hc hd
      rw [prefixLeadingDigit, if_neg hd, upperFirst]
      rw [if_neg (by simp [List.isEmpty])]
      have hup := toUpper_toNat_of_letter hlet
      simp only [regexUpperAlnum, jsToUpper, Bool.and_eq_true, decide_eq_true_eq]
      exact ⟨⟨hup.1, hup.2⟩, hrest⟩

theorem sanitizeChars_fixes_regex {l : List Char}
    (h : regexUpperAlnum l = true) : sanitizeChars l = l := by
  cases l with
  | nil => exact absurd h (by decide)
  | cons c rest =>
    simp only [regexUpperAlnum, Bool.and_eq_true, decide_eq_true_eq,
      List.all_eq_true] at h
    obtain ⟨⟨h1, h2⟩, hrest⟩ := h
    unfold sanitizeChars
    have hfilter : (c :: rest).filter isAsciiAlnum = c :: rest := by
      rw [List.filter_eq_self]
      intro x hx
      rcases List.mem_cons.mp hx with rfl | hx
      · exact alnum_of_letter (Or.inl ⟨h1, h2⟩)
      · exact hrest x hx
    rw [hfilter]
    have hd : ¬ isAsciiDigit c = true := by
      simp only [isAsciiDigit, Bool.and_eq_true, decide_eq_true_eq]
      omega
    rw [prefixLeadingDigit, if_neg hd, upperFirst]
    rw [if_neg (by simp [List.isEmpty])]
    rw [jsToUpper, toUpper_of_upper h1 h2]

/-! ### Determinism of emission (claim C1) -/

/-- **C1.** For a fixed node/document and fixed configuration, the
emitted `jsx` and `css` text is identical across runs: the `Date.now()`
read (the explicit `now` argument, `t₁` vs `t₂` here) influences only
the non-semantic `metadata.generationTime` field, never the emitted
`jsx`/`css` content — both for a single `generateComponent` call and
for the whole `generateComponents` batch. -/
theorem claim_C1_deterministic_emission
    (cfg : EnterpriseGenerationConfig) (t₁ t₂ : Nat) (node : FigmaNode)
    (componentName : String) (figmaData : FigmaApiResponse) :
    (ReactGenerator.generateComponent cfg t₁ node componentName).jsx =
      (ReactGenerator.generateComponent cfg t₂ node componentName).jsx ∧
    (ReactGenerator.generateComponent cfg t₁ node componentName).css =
      (ReactGenerator.generateComponent cfg t₂ node componentName).css ∧
    (ReactGenerator.generateComponent cfg t₁ node
        componentName).metadata.generationTime = t₁ ∧
    (ReactGenerator.generateComponents cfg t₁ figmaData).map
        (fun c => (c.jsx, c.css)) =
      (ReactGenerator.generateComponents cfg t₂ figmaData).map
        (fun c => (c.jsx, c.css)) := by
  refine ⟨rfl, rfl, rfl, ?_⟩
  unfold ReactGenerator.generateComponents
  rw [List.map_append, List.map_append]
  congr 1
  · rw [List.map_filterMap, List.map_filterMap]
    congr 1
    funext kv
    cases ReactGenerator.findNodeById figmaData.document kv.2.key <;> rfl
  · rw [List.map_map, List.map_map]
    congr 1

/-- **C2.** The shared name-sanitization function is idempotent, and its
output always matches `^[A-Z][A-Za-z0-9]*$` or is the literal
`"Component"`; the per-class copies (`ReactGenerator`,
`EnterpriseCodeGenerator`) are bit-exact copies of the same function. -/
theorem claim_C2_sanitize_idempotent_and_shaped (s : String) :
    sanitizeComponentName (sanitizeComponentName s) = sanitizeComponentName s ∧
    (matchesComponentNameRegex (sanitizeComponentName s) = true ∨
      sanitizeComponentName s = "Component") ∧
    ReactGenerator.sanitizeComponentName s = sanitizeComponentName s ∧
    EnterpriseCodeGenerator.sanitizeComponentName s = sanitizeComponentName s := by
  have hregex : regexUpperAlnum (sanitizeChars s.data) = true :=
    regex_sanitizeChars s.data
  refine ⟨?_, Or.inl ?_, rfl, rfl⟩
  · show String.mk (sanitizeChars (String.mk (sanitizeChars s.data)).data) = _
    have hdata : (String.mk (sanitizeChars s.data)).data = sanitizeChars s.data :=
      rfl
    rw [hdata, sanitizeChars_fixes_regex hregex]
    rfl
  · exact hregex

/-! ### Quality-score folds (claims C8, C10) -/

theorem max0_sub_collapse (x k : Int) (hk : 0 ≤ k) :
    max 0 (max 0 x - k) = max 0 (x - k) := by
  rcases le_total x 0 with h | h
  · rw [max_eq_left h, max_eq_left (by omega), max_eq_left (by omega)]
  · rw [max_eq_right h]

/-- Count of issues in one category. -/
def catCount (cat : String) (issues : List QualityIssue) : Nat :=
  issues.countP (fun i => decide (i.category = cat))

theorem qaScoreStep_perf (s : Int × Int × Int) (i : QualityIssue)
    (h : i.category = "performance") :
    QualityAssurance.qaScoreStep s i = (max 0 (s.1 - 5), s.2.1, s.2.2) := by
  unfold QualityAssurance.qaScoreStep
  rw [if_pos h]

theorem qaScoreStep_acc (s : Int × Int × Int) (i : QualityIssue)
    (h : i.category = "accessibility") :
    QualityAssurance.qaScoreStep s i = (s.1, max 0 (s.2.1 - 10), s.2.2) := by
  unfold QualityAssurance.qaScoreStep
  rw [if_neg (by rw [h]; decide), if_pos h]

theorem qaScoreStep_maint (s : Int × Int × Int) (i : QualityIssue)
    (h : i.category = "maintainability") :
    QualityAssurance.qaScoreStep s i = (s.1, s.2.1, max 0 (s.2.2 - 3)) := by
  unfold QualityAssurance.qaScoreStep
  rw [if_neg (by rw [h]; decide), if_neg (by rw [h]; decide), if_pos h]

theorem qaScoreStep_other (s : Int × Int × Int) (i : QualityIssue)
    (h1 : ¬ i.category = "performance") (h2 : ¬ i.category = "accessibility")
    (h3 : ¬ i.category = "maintainability") :
    QualityAssurance.qaScoreStep s i = s := by
  unfold QualityAssurance.qaScoreStep
  rw [if_neg h1, if_neg h2, if_neg h3]

theorem ecgScoreStep_perf (s : Int × Int × Int) (i : QualityIssue)
    (h : i.category = "performance") :
    EnterpriseCodeGenerator.ecgScoreStep s i = (s.1 - 5, s.2.1, s.2.2) := by
  unfold EnterpriseCodeGenerator.ecgScoreStep
  rw [if_pos h]

theorem ecgScoreStep_acc (s : Int × Int × Int) (i : QualityIssue)
    (h : i.category = "accessibility") :
    EnterpriseCodeGenerator.ecgScoreStep s i = (s.1, s.2.1 - 10, s.2.2) := by
  unfold EnterpriseCodeGenerator.ecgScoreStep
  rw [if_neg (by rw [h]; decide), if_pos h]

theorem ecgScoreStep_maint (s : Int × Int × Int) (i : QualityIssue)
    (h : i.category = "maintainability") :
    EnterpriseCodeGenerator.ecgScoreStep s i = (s.1, s.2.1, s.2.2 - 3) := by
  unfold EnterpriseCodeGenerator.ecgScoreStep
  rw [if_neg (by rw [h]; decide), if_neg (by rw [h]; decide), if_pos h]

theorem ecgScoreStep_other (s : Int × Int × Int) (i : QualityIssue)
    (h1 : ¬ i.category = "performance") (h2 : ¬ i.category = "accessibility")
    (h3 : ¬ i.category = "maintainability") :
    EnterpriseCodeGenerator.ecgScoreStep s i = s := by
  unfold EnterpriseCodeGenerator.ecgScoreStep
  rw [if_neg h1, if_neg h2, if_neg h3]

theorem qa_fold (issues : List QualityIssue) (p a m : Int) (hp : 0 ≤ p)
    (ha : 0 ≤ a) (hm : 0 ≤ m) :
    issues.foldl QualityAssurance.qaScoreStep (p, a, m) =
      (max 0 (p - 5 * catCount "performance" issues),
       max 0 (a - 10 * catCount "accessibility" issues),
       max 0 (m - 3 * catCount "maintainability" issues)) := by
  induction issues generalizing p a m with
  | nil =>
    simp only [List.foldl_nil, catCount, List.countP_nil, Nat.cast_zero,
      mul_zero, sub_zero]
    rw [max_eq_right hp, max_eq_right ha, max_eq_right hm]
  | cons i rest ih =>
    rw [List.foldl_cons]
    by_cases h1 : i.category = "performance"
    · have hno2 : ¬ i.category = "accessibility" := by rw [h1]; decide
      have hno3 : ¬ i.category = "maintainability" := by rw [h1]; decide
      rw [qaScoreStep_perf _ _ h1]
      rw [ih (max 0 ((p, a, m).1 - 5)) (p, a, m).2.1 (p, a, m).2.2
        (le_max_left 0 _) ha hm]
      simp only [catCount, List.countP_cons, h1, hno2, hno3, decide_True,
        decide_False, if_true, if_false, Nat.add_zero]
      rw [max0_sub_collapse _ _ (by positivity)]
      congr 2
      push_cast
      ring
    · by_cases h2 : i.category = "accessibility"
      · have hno3 : ¬ i.category = "maintainability" := by rw [h2]; decide
        rw [qaScoreStep_acc _ _ h2]
        rw [ih (p, a, m).1 (max 0 ((p, a, m).2.1 - 10)) (p, a, m).2.2 hp
          (le_max_left 0 _) hm]
        simp only [catCount, List.countP_cons, h1, h2, hno3, decide_True,
          decide_False, if_true, if_false, Nat.add_zero]
        rw [max0_sub_collapse _ _ (by positivity)]
        congr 2
        push_cast
        ring
      · by_cases h3 : i.category = "maintainability"
        · rw [qaScoreStep_maint _ _ h3]
          rw [ih (p, a, m).1 (p, a, m).2.1 (max 0 ((p, a, m).2.2 - 3)) hp ha
            (le_max_left 0 _)]
          simp only [catCount, List.countP_cons, h1, h2, h3, decide_True,
            decide_False, if_true, if_false, Nat.add_zero]
          rw [max0_sub_collapse _ _ (by positivity)]
          congr 2
          push_cast
          ring
        · rw [qaScoreStep_other _ _ h1 h2 h3, ih p a m hp ha hm]
          simp [catCount, List.countP_cons, h1, h2, h3]

theorem ecg_fold (issues : List QualityIssue) (p a m : Int) :
    issues.foldl EnterpriseCodeGenerator.ecgScoreStep (p, a, m) =
      (p - 5 * catCount "performance" issues,
       a - 10 * catCount "accessibility" issues,
       m - 3 * catCount "maintainability" issues) := by
  induction issues generalizing p a m with
  | nil =>
    simp [catCount]
  | cons i rest ih =>
    rw [List.foldl_cons]
    by_cases h1 : i.category = "performance"
    · have hno2 : ¬ i.category = "accessibility" := by rw [h1]; decide
      have hno3 : ¬ i.category = "maintainability" := by rw [h1]; decide
      rw [ecgScoreStep_perf _ _ h1, ih ((p, a, m).1 - 5) (p, a, m).2.1
        (p, a, m).2.2]
      simp only [catCount, List.countP_cons, h1, hno2, hno3, decide_True,
        decide_False, if_true, if_false, Nat.add_zero]
      refine congrArg₂ _ (by push_cast; ring) rfl
    · by_cases h2 : i.category = "accessibility"
      · have hno3 : ¬ i.category = "maintainability" := by rw [h2]; decide
        rw [ecgScoreStep_acc _ _ h2, ih (p, a, m).1 ((p, a, m).2.1 - 10)
          (p, a, m).2.2]
        simp only [catCount, List.countP_cons, h1, h2, hno3, decide_True,
          decide_False, if_true, if_false, Nat.add_zero]
        refine congrArg₂ _ rfl (congrArg₂ _ (by push_cast; ring) rfl)
      · by_cases h3 : i.category = "maintainability"
        · rw [ecgScoreStep_maint _ _ h3, ih (p, a, m).1 (p, a, m).2.1
            ((p, a, m).2.2 - 3)]
          simp only [catCount, List.countP_cons, h1, h2, h3, decide_True,
            decide_False, if_true, if_false, Nat.add_zero]
          refine congrArg₂ _ rfl (congrArg₂ _ rfl (by push_cast; ring))
        · rw [ecgScoreStep_other _ _ h1 h2 h3, ih p a m]
          simp [catCount, List.countP_cons, h1, h2, h3]

theorem score_in_range (k : Int) (n : Nat) (hk : 0 ≤ k) :
    0 ≤ max 0 (100 - k * n) ∧ max 0 (100 - k * n) ≤ 100 := by
  refine ⟨le_max_left _ _, max_le (by norm_num) ?_⟩
  have : 0 ≤ k * (n : Int) := by positivity
  omega

theorem jsRound_bounds {q : ℚ} (h0 : 0 ≤ q) (h100 : q ≤ 100) :
    0 ≤ jsRound q ∧ jsRound q ≤ 100 := by
  unfold jsRound
  constructor
  · rw [Int.le_floor]
    push_cast
    linarith
  · have hlt : (⌊q + 1 / 2⌋ : Int) < 101 := by
      rw [Int.floor_lt]
      push_cast
      linarith
    omega

/-- **C8.** Every subscore of the returned `QualityReport` lies in
`[0, 100]` no matter how many issues are recorded: scores start at 100,
fixed penalties are subtracted (accessibility 10, performance 5,
maintainability 3), and the result is floored at 0; `testCoverage` is
85 exactly when testing is enabled, else 0.  Stated for both
implementations (`EnterpriseCodeGenerator.analyzeQuality`, which
returns `testCoverage`, and `QualityAssurance.analyzeQuality`). -/
theorem claim_C8_quality_scores_bounded (cfg : EnterpriseGenerationConfig)
    (components : List GeneratedComponent) :
    ((EnterpriseCodeGenerator.analyzeQuality cfg components).codeQuality =
        100 ∧
     (EnterpriseCodeGenerator.analyzeQuality cfg components).accessibility =
       max (0 : Int) (100 - 10 * (catCount "accessibility"
        (components.flatMap EnterpriseCodeGenerator.analyzeComponentQuality) : Int)) ∧
     (EnterpriseCodeGenerator.analyzeQuality cfg components).performance =
       max (0 : Int) (100 - 5 * (catCount "performance"
        (components.flatMap EnterpriseCodeGenerator.analyzeComponentQuality) : Int)) ∧
     (EnterpriseCodeGenerator.analyzeQuality cfg components).maintainability =
       max (0 : Int) (100 - 3 * (catCount "maintainability"
        (components.flatMap EnterpriseCodeGenerator.analyzeComponentQuality) : Int)) ∧
     (EnterpriseCodeGenerator.analyzeQuality cfg components).testCoverage =
       (if cfg.enableTesting then 85 else 0)) ∧
    (∀ score ∈
      [(EnterpriseCodeGenerator.analyzeQuality cfg components).codeQuality,
       (EnterpriseCodeGenerator.analyzeQuality cfg components).accessibility,
       (EnterpriseCodeGenerator.analyzeQuality cfg components).performance,
       (EnterpriseCodeGenerator.analyzeQuality cfg components).maintainability,
       (EnterpriseCodeGenerator.analyzeQuality cfg components).testCoverage],
      0 ≤ score ∧ score ≤ 100) ∧
    ((QualityAssurance.analyzeQuality cfg components).accessibility =
       max (0 : Int) (100 - 10 * (catCount "accessibility"
        (components.flatMap QualityAssurance.analyzeComponent) : Int)) ∧
     (QualityAssurance.analyzeQuality cfg components).performance =
       max (0 : Int) (100 - 5 * (catCount "performance"
        (components.flatMap QualityAssurance.analyzeComponent) : Int))) ∧
    (∀ score ∈
      [(QualityAssurance.analyzeQuality cfg components).overallScore,
       (QualityAssurance.analyzeQuality cfg components).visualAccuracy,
       (QualityAssurance.analyzeQuality cfg components).codeQuality,
       (QualityAssurance.analyzeQuality cfg components).accessibility,
       (QualityAssurance.analyzeQuality cfg components).performance],
      0 ≤ score ∧ score ≤ 100) := by
  have hE : EnterpriseCodeGenerator.analyzeQuality cfg components =
      { codeQuality := max 0 100
        accessibility := max 0 (100 - 10 * catCount "accessibility"
          (components.flatMap EnterpriseCodeGenerator.analyzeComponentQuality))
        performance := max 0 (100 - 5 * catCount "performance"
          (components.flatMap EnterpriseCodeGenerator.analyzeComponentQuality))
        maintainability := max 0 (100 - 3 * catCount "maintainability"
          (components.flatMap EnterpriseCodeGenerator.analyzeComponentQuality))
        testCoverage := if cfg.enableTesting then 85 else 0
        issues :=
          components.flatMap EnterpriseCodeGenerator.analyzeComponentQuality } := by
    unfold EnterpriseCodeGenerator.analyzeQuality
    dsimp only
    rw [ecg_fold]
  have hQ : QualityAssurance.analyzeQuality cfg components =
      { overallScore := jsRound ((((100 : Int) +
          max (0 : Int) (100 - 10 * (catCount "accessibility"
            (components.flatMap QualityAssurance.analyzeComponent) : Int)) +
          max (0 : Int) (100 - 5 * (catCount "performance"
            (components.flatMap QualityAssurance.analyzeComponent) : Int)) +
          max (0 : Int) (100 - 3 * (catCount "maintainability"
            (components.flatMap QualityAssurance.analyzeComponent) : Int)) : Int) : ℚ)
          / 4)
        visualAccuracy := 85
        codeQuality := max 0 100
        accessibility := max 0 (max 0 (100 - 10 * catCount "accessibility"
          (components.flatMap QualityAssurance.analyzeComponent)))
        performance := max 0 (max 0 (100 - 5 * catCount "performance"
          (components.flatMap QualityAssurance.analyzeComponent)))
        recommendations := QualityAssurance.generateRecommendations
          (components.flatMap QualityAssurance.analyzeComponent) } := by
    unfold QualityAssurance.analyzeQuality
    dsimp only
    rw [qa_fold _ _ _ _ (by norm_num) (by norm_num) (by norm_num)]
  rw [hE, hQ]
  have hacc := score_in_range 10
    (catCount "accessibility"
      (components.flatMap EnterpriseCodeGenerator.analyzeComponentQuality))
    (by norm_num)
  have hperf := score_in_range 5
    (catCount "performance"
      (components.flatMap EnterpriseCodeGenerator.analyzeComponentQuality))
    (by norm_num)
  have hmaint := score_in_range 3
    (catCount "maintainability"
      (components.flatMap EnterpriseCodeGenerator.analyzeComponentQuality))
    (by norm_num)
  have haccQ := score_in_range 10
    (catCount "accessibility"
      (components.flatMap QualityAssurance.analyzeComponent)) (by norm_num)
  have hperfQ := score_in_range 5
    (catCount "performance"
      (components.flatMap QualityAssurance.analyzeComponent)) (by norm_num)
  have hmaintQ := score_in_range 3
    (catCount "maintainability"
      (components.flatMap QualityAssurance.analyzeComponent)) (by norm_num)
  have hmaxmax : ∀ x : Int, max 0 (max 0 x) = max 0 x := fun x =>
    max_eq_right (le_max_left 0 x)
  have hsum_lo : ∀ x y z : Int, 0 ≤ x → 0 ≤ y → 0 ≤ z →
      (0 : ℚ) ≤ ((100 + x + y + z : Int) : ℚ) / 4 := by
    intro x y z hx hy hz
    have : (0 : Int) ≤ 100 + x + y + z := by omega
    have hcast : (0 : ℚ) ≤ ((100 + x + y + z : Int) : ℚ) := by exact_mod_cast this
    linarith
  have hsum_hi : ∀ x y z : Int, x ≤ 100 → y ≤ 100 → z ≤ 100 →
      ((100 + x + y + z : Int) : ℚ) / 4 ≤ 100 := by
    intro x y z hx hy hz
    have : (100 + x + y + z : Int) ≤ 400 := by omega
    have hcast : ((100 + x + y + z : Int) : ℚ) ≤ 400 := by exact_mod_cast this
    linarith
  have h100 : max (0 : Int) 100 = 100 := by norm_num
  refine ⟨⟨h100, rfl, rfl, rfl, rfl⟩, ?_, ⟨hmaxmax _, hmaxmax _⟩, ?_⟩
  · intro score hs
    simp only [List.mem_cons, List.not_mem_nil, or_false] at hs
    rcases hs with rfl | rfl | rfl | rfl | rfl
    · rw [h100]
      norm_num
    · exact hacc
    · exact hperf
    · exact hmaint
    · show 0 ≤ (if cfg.enableTesting = true then (85 : Int) else 0) ∧ _
      split <;> norm_num
  · intro score hs
    simp only [List.mem_cons, List.not_mem_nil, or_false] at hs
    rcases hs with rfl | rfl | rfl | rfl | rfl
    · exact jsRound_bounds
        (hsum_lo _ _ _ haccQ.1 hperfQ.1 hmaintQ.1)
        (hsum_hi _ _ _ haccQ.2 hperfQ.2 hmaintQ.2)
    · show (0 : Int) ≤ 85 ∧ (85 : Int) ≤ 100
      norm_num
    · rw [h100]
      norm_num
    · rw [hmaxmax]
      exact haccQ
    · rw [hmaxmax]
      exact hperfQ

/-- **C10.** `QualityAssurance.analyzeQuality` returns
`codeQuality = 100` (no rule decrements it) and `visualAccuracy = 85`,
and `overallScore` is the JavaScript-rounded arithmetic mean of the four
internal subscores — including the `maintainability` score, which is
computed (`maintainabilityScore`) but is not a field of the returned
report. -/
theorem claim_C10_overall_score_shape (cfg : EnterpriseGenerationConfig)
    (components : List GeneratedComponent) :
    (QualityAssurance.analyzeQuality cfg components).codeQuality = 100 ∧
    (QualityAssurance.analyzeQuality cfg components).visualAccuracy = 85 ∧
    (QualityAssurance.analyzeQuality cfg components).overallScore =
      jsRound
        ((((QualityAssurance.analyzeQuality cfg components).codeQuality +
          (QualityAssurance.analyzeQuality cfg components).accessibility +
          (QualityAssurance.analyzeQuality cfg components).performance +
          QualityAssurance.maintainabilityScore components : Int) : ℚ) / 4) := by
  have hfold := qa_fold (components.flatMap QualityAssurance.analyzeComponent)
    100 100 100 (by norm_num) (by norm_num) (by norm_num)
  have hmaxmax : ∀ x : Int, max 0 (max 0 x) = max 0 x := fun x =>
    max_eq_right (le_max_left 0 x)
  unfold QualityAssurance.analyzeQuality QualityAssurance.maintainabilityScore
  dsimp only
  rw [hfold]
  dsimp only
  refine ⟨by decide, rfl, ?_⟩
  simp only [hmaxmax]
  norm_num

/-! ### Failure containment of the orchestrator (claim C7) -/

theorem processError_suggestion_nonempty (e : JsError) (now : Nat) :
    ∃ s, (ErrorHandler.processError e now).suggestion = some s ∧ s ≠ "" := by
  unfold ErrorHandler.processError
  split_ifs <;> exact ⟨_, rfl, by decide⟩

/-- **C7.** If any phase throws (the phase sequence produces an error),
`generateEnterprise` does not propagate the exception and returns no
partial result: it returns the well-typed fallback whose component list
is empty, whose README embeds the handled error's message and
suggestion, whose quality and performance scores are all zero, and
whose quality recommendations carry the error's suggested fix. -/
theorem claim_C7_failure_containment (p : GenerationPipeline) (now : Nat)
    (e : JsError) (h : GenerationOrchestrator.runPipeline p = .error e) :
    GenerationOrchestrator.generateEnterprise p now =
      ErrorHandler.createFallbackResult (ErrorHandler.processError e now)
        now ∧
    (GenerationOrchestrator.generateEnterprise p now).components = [] ∧
    (GenerationOrchestrator.generateEnterprise p now).documentation.readme =
      "# Generation Failed\n\nError: " ++
        optToJs (ErrorHandler.processError e now).message ++
        "\n\nSuggestion: " ++
        optToJs (ErrorHandler.processError e now).suggestion ∧
    (GenerationOrchestrator.generateEnterprise p now).quality.overallScore
      = 0 ∧
    (GenerationOrchestrator.generateEnterprise p now).quality.visualAccuracy
      = 0 ∧
    (GenerationOrchestrator.generateEnterprise p now).quality.codeQuality
      = 0 ∧
    (GenerationOrchestrator.generateEnterprise p now).quality.accessibility
      = 0 ∧
    (GenerationOrchestrator.generateEnterprise p now).quality.performance
      = 0 ∧
    (GenerationOrchestrator.generateEnterprise p now).performance.bundleSize
      = 0 ∧
    (GenerationOrchestrator.generateEnterprise p now).performance.renderTime
      = 0 ∧
    (GenerationOrchestrator.generateEnterprise p now).performance.memoryUsage
      = 0 ∧
    (GenerationOrchestrator.generateEnterprise p
      now).performance.optimizationSavings = 0 ∧
    (GenerationOrchestrator.generateEnterprise p
        now).quality.recommendations =
      [(ErrorHandler.processError e now).suggestion.getD
        "Fix the underlying error and try again"] := by
  have hmain : GenerationOrchestrator.generateEnterprise p now =
      ErrorHandler.createFallbackResult (ErrorHandler.processError e now)
        now := by
    unfold GenerationOrchestrator.generateEnterprise
    rw [h]
    rfl
  obtain ⟨s, hs, hne⟩ := processError_suggestion_nonempty e now
  refine ⟨hmain, ?_, ?_, ?_, ?_, ?_, ?_, ?_, ?_, ?_, ?_, ?_, ?_⟩ <;>
    rw [hmain]
  all_goals try rfl
  show (ErrorHandler.createFallbackResult (ErrorHandler.processError e now)
    now).quality.recommendations = _
  unfold ErrorHandler.createFallbackResult
  rw [hs]
  simp only [hne, Option.getD_some, if_neg, ne_eq, not_false_eq_true]

/-- Witness for C7: a concrete failing pipeline whose analysis phase
throws; the orchestrator returns the fallback result with an empty
component list and zeroed quality. -/
theorem claim_C7_failure_containment_witness :
    GenerationOrchestrator.runPipeline failingPipeline =
      .error errFixture ∧
    (GenerationOrchestrator.generateEnterprise failingPipeline
      1234).components = [] ∧
    (GenerationOrchestrator.generateEnterprise failingPipeline
      1234).quality.codeQuality = 0 := by
  have h := claim_C7_failure_containment failingPipeline 1234 errFixture rfl
  exact ⟨rfl, h.2.1, h.2.2.2.2.2.1⟩

/-! ### Invalid framework handling (claim C6) -/

/-- **C6 counterexample.** With `framework = "sveltekit"` the pipeline
does not uniformly fail: the factory throws a plain `Error` (its `name`
is `"Error"`, not a `ConfigurationError` class), and the legacy
`EnterpriseCodeGenerator.generateEnterpriseJSX` silently falls back to
the React emission — it returns exactly the string it returns for
`framework = "react"`, raising nothing. -/
theorem claim_C6_counterexample :
    FrameworkGeneratorFactory.createGenerator cfgSveltekit =
      .error
        { name := "Error"
          message := some "Unsupported framework: sveltekit"
          stack := none } ∧
    EnterpriseCodeGenerator.generateEnterpriseJSX cfgSveltekit nodeFixture
        "Widget" =
      EnterpriseCodeGenerator.generateEnterpriseJSX
        { cfgSveltekit with framework := "react" } nodeFixture "Widget" := by
  constructor
  · rfl
  · rfl

/-- **C6 (amended).** For every configuration whose `framework` is
outside the four supported values, `FrameworkGeneratorFactory.createGenerator`
throws a plain `Error` whose message names the invalid value (it is
raised when the Generation phase calls the factory, not before), while
the legacy `EnterpriseCodeGenerator.generateEnterpriseJSX` raises
nothing and silently falls back to the React emission. -/
theorem claim_C6_invalid_framework_amended
    (cfg : EnterpriseGenerationConfig)
    (h : cfg.framework ∉ (["react", "vue", "angular", "svelte"] :
      List String)) :
    FrameworkGeneratorFactory.createGenerator cfg =
      .error
        { name := "Error"
          message := some ("Unsupported framework: " ++ cfg.framework)
          stack := none } ∧
    ∀ (node : FigmaNode) (componentName : String),
      EnterpriseCodeGenerator.generateEnterpriseJSX cfg node componentName =
        EnterpriseCodeGenerator.generateReactComponent cfg componentName
          (EnterpriseCodeGenerator.extractEnterpriseProps node)
          (EnterpriseCodeGenerator.generateEnterpriseChildren node)
          (EnterpriseCodeGenerator.generateRequiredHooks node)
          (EnterpriseCodeGenerator.generateEnterpriseImports node) := by
  simp only [List.mem_cons, List.not_mem_nil, or_false, not_or] at h
  obtain ⟨h1, h2, h3, h4⟩ := h
  constructor
  · unfold FrameworkGeneratorFactory.createGenerator
    rw [if_neg h1, if_neg h2, if_neg h3, if_neg h4]
  · intro node componentName
    unfold EnterpriseCodeGenerator.generateEnterpriseJSX
    rw [if_neg h1, if_neg h2, if_neg h3]

/-- Witness for the amended C6 at the concrete `"sveltekit"`
configuration. -/
theorem claim_C6_invalid_framework_amended_witness :
    FrameworkGeneratorFactory.createGenerator cfgSveltekit =
      .error
        { name := "Error"
          message := some ("Unsupported framework: " ++
            cfgSveltekit.framework)
          stack := none } ∧
    EnterpriseCodeGenerator.generateEnterpriseJSX cfgSveltekit nodeFixture
        "Widget" =
      EnterpriseCodeGenerator.generateReactComponent cfgSveltekit "Widget"
        (EnterpriseCodeGenerator.extractEnterpriseProps nodeFixture)
        (EnterpriseCodeGenerator.generateEnterpriseChildren nodeFixture)
        (EnterpriseCodeGenerator.generateRequiredHooks nodeFixture)
        (EnterpriseCodeGenerator.generateEnterpriseImports nodeFixture) := by
  have h := claim_C6_invalid_framework_amended cfgSveltekit (by decide)
  exact ⟨h.1, h.2 nodeFixture "Widget"⟩

/-! ### The image lazy-loading rewrite (claim C5) -/

theorem takeWhile_append_all {p : Char → Bool} (xs ys : List Char)
    (h : ∀ x ∈ xs, p x = true) :
    (xs ++ ys).takeWhile p = xs ++ ys.takeWhile p := by
  induction xs with
  | nil => rfl
  | cons x xs ih =>
    rw [List.cons_append, List.takeWhile_cons, h x (List.mem_cons_self _ _),
      if_pos rfl, List.cons_append,
      ih (fun a ha => h a (List.mem_cons_of_mem _ ha))]

theorem dropWhile_append_all {p : Char → Bool} (xs ys : List Char)
    (h : ∀ x ∈ xs, p x = true) :
    (xs ++ ys).dropWhile p = ys.dropWhile p := by
  induction xs with
  | nil => rfl
  | cons x xs ih =>
    rw [List.cons_append, List.dropWhile_cons, h x (List.mem_cons_self _ _),
      if_pos rfl]
    exact ih (fun a ha => h a (List.mem_cons_of_mem _ ha))

theorem imgSearchSrc_at_src (g1acc url tail after : List Char)
    (hne : url ≠ []) (hq : ∀ c ∈ url, c ≠ '"')
    (hdrop : tail.dropWhile (fun x => decide (x ≠ '>')) = '>' :: after) :
    imgSearchSrc g1acc
        ('s' :: 'r' :: 'c' :: '=' :: '"' :: (url ++ '"' :: tail)) =
      some (g1acc, url, tail.takeWhile (fun x => decide (x ≠ '>')),
        after) := by
  have hurl : ∀ c ∈ url, (fun x => decide (x ≠ '"')) c = true := by
    intro c hc
    simp only [decide_eq_true_eq]
    exact hq c hc
  rw [imgSearchSrc]
  rw [if_pos (by simp [List.isPrefixOf])]
  dsimp only
  have h1 : List.takeWhile (fun x => decide (x ≠ '"'))
      (List.drop 5 ('s' :: 'r' :: 'c' :: '=' :: '"' :: (url ++ '"' :: tail)))
      = url := by
    show List.takeWhile (fun x => decide (x ≠ '"')) (url ++ '"' :: tail) = url
    rw [takeWhile_append_all _ _ hurl, List.takeWhile_cons]
    simp
  have h2 : List.dropWhile (fun x => decide (x ≠ '"'))
      (List.drop 5 ('s' :: 'r' :: 'c' :: '=' :: '"' :: (url ++ '"' :: tail)))
      = '"' :: tail := by
    show List.dropWhile (fun x => decide (x ≠ '"')) (url ++ '"' :: tail)
      = '"' :: tail
    rw [dropWhile_append_all _ _ hurl, List.dropWhile_cons]
    simp
  rw [h1, h2]
  rw [if_neg (by simp [hne])]
  show (match List.dropWhile (fun x => decide (x ≠ '>')) tail with
    | '>' :: a =>
      some (g1acc, url, List.takeWhile (fun x => decide (x ≠ '>')) tail, a)
    | _ => none) = _
  rw [hdrop]
  rfl

theorem matchImgTag_on (url tail after : List Char) (hne : url ≠ [])
    (hq : ∀ c ∈ url, c ≠ '"')
    (hdrop : tail.dropWhile (fun x => decide (x ≠ '>')) = '>' :: after) :
    matchImgTag ("<img src=\"".data ++ url ++ '"' :: tail) =
      some ("<img src=\"".data ++ url ++
        "\" loading=\"lazy\" decoding=\"async\"".data ++
        tail.takeWhile (fun x => decide (x ≠ '>')) ++ ['>'], after) := by
  unfold matchImgTag
  rw [if_pos (by simp [List.isPrefixOf])]
  have hshape : ("<img src=\"".data ++ url ++ '"' :: tail).drop 4 =
      ' ' :: 's' :: 'r' :: 'c' :: '=' :: '"' :: (url ++ '"' :: tail) := rfl
  rw [hshape]
  rw [imgSearchSrc]
  rw [if_neg (by simp [List.isPrefixOf])]
  rw [if_neg (by decide)]
  rw [imgSearchSrc_at_src _ _ _ _ hne hq hdrop]
  rfl

theorem replaceAll_single
    (t : List Char → Option (List Char × List Char)) (l r : List Char)
    (hne : l ≠ []) (h : t l = some (r, [])) :
    replaceAllAux t (l.length + 1) l = r := by
  cases l with
  | nil => exact absurd rfl hne
  | cons c cs =>
    show replaceAllAux t (cs.length + 1 + 1) (c :: cs) = r
    rw [replaceAllAux, h]
    show r ++ replaceAllAux t (cs.length + 1) [] = r
    have hnil : replaceAllAux t (cs.length + 1) [] = [] := by
      rw [replaceAllAux]
    rw [hnil, List.append_nil]

/-- **C5 counterexample.** The asset rewrite is not idempotent and does
not restrict itself to `<img>` tags lacking the attributes: on
`<img src="a">` one run appends the attributes, and a second run (or a
run on markup already carrying them) appends them again. -/
theorem claim_C5_counterexample :
    OptimizationEngine.optimizeImages "<img src=\"a\">" =
      "<img src=\"a\" loading=\"lazy\" decoding=\"async\">" ∧
    OptimizationEngine.optimizeImages
        (OptimizationEngine.optimizeImages "<img src=\"a\">") ≠
      OptimizationEngine.optimizeImages "<img src=\"a\">" ∧
    OptimizationEngine.optimizeImages
        "<img src=\"a\" loading=\"lazy\" decoding=\"async\">" ≠
      "<img src=\"a\" loading=\"lazy\" decoding=\"async\">" := by
  refine ⟨by decide, by decide, by decide⟩

/-- **C5 (amended).** For every non-empty URL (no quote and no `>` in
it), the rewrite appends `loading="lazy" decoding="async"` directly
after the `src` attribute of an `<img>` tag — whether or not the tag
already carries the attributes — so a second run duplicates them and
the rewrite is not idempotent. -/
theorem claim_C5_img_rewrite_amended (url : String) (hne : url ≠ "")
    (hok : ∀ c ∈ url.data, c ≠ '"' ∧ c ≠ '>') :
    OptimizationEngine.optimizeImages ("<img src=\"" ++ url ++ "\">") =
      "<img src=\"" ++ url ++ "\" loading=\"lazy\" decoding=\"async\">" ∧
    OptimizationEngine.optimizeImages (OptimizationEngine.optimizeImages
        ("<img src=\"" ++ url ++ "\">")) =
      "<img src=\"" ++ url ++
        "\" loading=\"lazy\" decoding=\"async\" loading=\"lazy\" decoding=\"async\">" ∧
    OptimizationEngine.optimizeImages (OptimizationEngine.optimizeImages
        ("<img src=\"" ++ url ++ "\">")) ≠
      OptimizationEngine.optimizeImages ("<img src=\"" ++ url ++ "\">") := by
  have hneData : url.data ≠ [] := by
    intro h
    apply hne
    cases url
    simp only at h
    rw [h]
  have hq : ∀ c ∈ url.data, c ≠ '"' := fun c hc => (hok c hc).1
  have hdata1 : ("<img src=\"" ++ url ++ "\">").data =
      "<img src=\"".data ++ url.data ++ '"' :: ['>'] := by
    simp [String.data_append, List.append_assoc]
  have hmatch1 := matchImgTag_on url.data ['>'] [] hneData hq (by decide)
  have step1 : OptimizationEngine.optimizeImages
      ("<img src=\"" ++ url ++ "\">") =
      "<img src=\"" ++ url ++ "\" loading=\"lazy\" decoding=\"async\">" := by
    unfold OptimizationEngine.optimizeImages jsReplaceAll
    rw [hdata1]
    rw [replaceAll_single _ _ _ (by simp) (by rw [hmatch1])]
    show String.mk _ = String.mk ("<img src=\"" ++ url ++
      "\" loading=\"lazy\" decoding=\"async\">").data
    apply congrArg
    simp [String.data_append, List.append_assoc]
  have hdata2 : ("<img src=\"" ++ url ++
      "\" loading=\"lazy\" decoding=\"async\">").data =
      "<img src=\"".data ++ url.data ++
        '"' :: (" loading=\"lazy\" decoding=\"async\">".data) := by
    simp [String.data_append, List.append_assoc]
  have hmatch2 := matchImgTag_on url.data
    (" loading=\"lazy\" decoding=\"async\">".data) [] hneData hq (by decide)
  have step2 : OptimizationEngine.optimizeImages
      ("<img src=\"" ++ url ++ "\" loading=\"lazy\" decoding=\"async\">") =
      "<img src=\"" ++ url ++
        "\" loading=\"lazy\" decoding=\"async\" loading=\"lazy\" decoding=\"async\">" := by
    unfold OptimizationEngine.optimizeImages jsReplaceAll
    rw [hdata2]
    rw [replaceAll_single _ _ _ (by simp) (by rw [hmatch2])]
    show String.mk _ = String.mk ("<img src=\"" ++ url ++
      "\" loading=\"lazy\" decoding=\"async\" loading=\"lazy\" decoding=\"async\">").data
    apply congrArg
    simp [String.data_append, List.append_assoc]
  refine ⟨step1, by rw [step1]; exact step2, ?_⟩
  rw [step1, step2]
  intro heq
  have hlen := congrArg (fun t => t.data.length) heq
  simp only [String.data_append, List.length_append] at hlen
  have e1 : ("<img src=\"".data).length = 10 := rfl
  have e2 :
      ("\" loading=\"lazy\" decoding=\"async\" loading=\"lazy\" decoding=\"async\">".data).length
      = 66 := by decide
  have e3 : ("\" loading=\"lazy\" decoding=\"async\">".data).length = 34 := by decide
  rw [e1, e2, e3] at hlen
  omega

theorem calcBundle_le_natCast (l : List GeneratedComponent) (k : Nat) :
    (PerformanceOptimizer.calculateBundleSize l ≤ (k : ℚ)) ↔
      PerformanceOptimizer.bundleBytes l ≤ 1024 * k := by
  unfold PerformanceOptimizer.calculateBundleSize
  rw [div_le_iff₀ (by norm_num : (0:ℚ) < 1024), mul_comm]
  exact_mod_cast Iff.rfl

theorem calcBundle_lt (l1 l2 : List GeneratedComponent) :
    (PerformanceOptimizer.calculateBundleSize l1 <
        PerformanceOptimizer.calculateBundleSize l2) ↔
      PerformanceOptimizer.bundleBytes l1 <
        PerformanceOptimizer.bundleBytes l2 := by
  unfold PerformanceOptimizer.calculateBundleSize
  rw [div_lt_div_iff_of_pos_right (by norm_num : (0:ℚ) < 1024)]
  exact_mod_cast Iff.rfl

set_option maxRecDepth 8000 in
/-- **C4 counterexample.** With a 1 KB budget and a single 1025-byte
component, the over-budget path prepends the (empty) utility stylesheet
plus a blank-line separator to the component's CSS, so the returned
bundle is strictly larger than the input bundle. -/
theorem claim_C4_counterexample :
    PerformanceOptimizer.calculateBundleSize
        (PerformanceOptimizer.optimizeBundleSize cfgKB1 [bigComp]) >
      PerformanceOptimizer.calculateBundleSize [bigComp] := by
  have hnle : ¬ PerformanceOptimizer.calculateBundleSize [bigComp] ≤
      ((cfgKB1.maxBundleSize : ℚ)) := by
    rw [calcBundle_le_natCast]
    decide
  have hlt2 : ((cfgKB1.maxBundleSize : ℚ)) <
      PerformanceOptimizer.calculateBundleSize
        (PerformanceOptimizer.extractCommonStyles
          (PerformanceOptimizer.removeRedundantStyles [bigComp])) := by
    rw [← not_le, calcBundle_le_natCast]
    decide
  rw [gt_iff_lt, calcBundle_lt]
  unfold PerformanceOptimizer.optimizeBundleSize
  rw [if_neg hnle]
  dsimp only
  rw [if_pos hlt2]
  decide

/-- **C4 (amended).** When the input bundle is within `maxBundleSize`,
`optimizeBundleSize` returns the list unchanged, so in that case the
returned bundle size equals (hence does not exceed) the input size.
Over budget the size can strictly increase (see the counterexample). -/
theorem claim_C4_bundle_budget_amended (cfg : OptimizationConfig)
    (l : List GeneratedComponent)
    (h : PerformanceOptimizer.calculateBundleSize l ≤ (cfg.maxBundleSize : ℚ)) :
    PerformanceOptimizer.optimizeBundleSize cfg l = l ∧
    PerformanceOptimizer.calculateBundleSize
        (PerformanceOptimizer.optimizeBundleSize cfg l) ≤
      PerformanceOptimizer.calculateBundleSize l := by
  have he : PerformanceOptimizer.optimizeBundleSize cfg l = l := by
    unfold PerformanceOptimizer.optimizeBundleSize
    rw [if_pos h]
  exact ⟨he, by rw [he]⟩

/-- Witness for the amended C4 at a concrete within-budget input. -/
theorem claim_C4_bundle_budget_amended_witness :
    PerformanceOptimizer.calculateBundleSize [compAa] ≤
      ((optCfgFixture.maxBundleSize : ℚ)) ∧
    PerformanceOptimizer.optimizeBundleSize optCfgFixture [compAa] =
      [compAa] := by
  have h : PerformanceOptimizer.calculateBundleSize [compAa] ≤
      ((optCfgFixture.maxBundleSize : ℚ)) := by
    rw [calcBundle_le_natCast]
    decide
  exact ⟨h, (claim_C4_bundle_budget_amended optCfgFixture [compAa] h).1⟩

/-- Witness for the amended C5 at the concrete URL `"a"`. -/
theorem claim_C5_img_rewrite_amended_witness :
    OptimizationEngine.optimizeImages ("<img src=\"" ++ "a" ++ "\">") =
      "<img src=\"" ++ "a" ++ "\" loading=\"lazy\" decoding=\"async\">" ∧
    OptimizationEngine.optimizeImages (OptimizationEngine.optimizeImages
        ("<img src=\"" ++ "a" ++ "\">")) ≠
      OptimizationEngine.optimizeImages ("<img src=\"" ++ "a" ++ "\">") := by
  have h := claim_C5_img_rewrite_amended "a" (by decide) (by decide)
  exact ⟨h.1, h.2.2⟩

/-! ### Deduplication and reuse extraction (claim C3) -/

theorem dedupAux_countP (h : String) (l : List GeneratedComponent) :
    ∀ acc : List (String × GeneratedComponent),
      (PerformanceOptimizer.dedupAux l acc).countP
          (fun p => decide (p.1 = h)) =
        acc.countP (fun p => decide (p.1 = h)) +
          (if acc.any (fun p => decide (p.1 = h)) = false ∧
              l.any (fun c =>
                decide (PerformanceOptimizer.generateComponentHash c = h)) =
                true
           then 1 else 0) := by
  induction l with
  | nil =>
    intro acc
    simp [PerformanceOptimizer.dedupAux]
  | cons c rest ih =>
    intro acc
    rw [PerformanceOptimizer.dedupAux]
    by_cases hc : acc.any
        (fun p => decide (p.1 = PerformanceOptimizer.generateComponentHash c))
        = true
    · rw [if_pos hc, ih]
      congr 1
      by_cases hch : PerformanceOptimizer.generateComponentHash c = h
      · subst hch
        simp [hc, List.any_cons]
      · rw [List.any_cons, decide_eq_false hch, Bool.false_or]
    · rw [if_neg hc, ih]
      have hacc : acc.any
          (fun p =>
            decide (p.1 = PerformanceOptimizer.generateComponentHash c)) =
          false := by
        rw [← Bool.not_eq_true]
        exact hc
      by_cases hch : PerformanceOptimizer.generateComponentHash c = h
      · subst hch
        simp [List.countP_append, List.countP_cons, List.any_append,
          List.any_cons, hacc]
      · simp only [List.countP_append, List.countP_cons, List.countP_nil,
          List.any_append, List.any_cons, List.any_nil,
          decide_eq_false hch, Bool.or_false, Bool.false_or, Nat.add_zero,
          Bool.false_eq_true, if_false]

theorem dedupAux_inv (l : List GeneratedComponent) :
    ∀ acc : List (String × GeneratedComponent),
      (∀ p ∈ acc, p.1 = PerformanceOptimizer.generateComponentHash p.2) →
      ∀ p ∈ PerformanceOptimizer.dedupAux l acc,
        p.1 = PerformanceOptimizer.generateComponentHash p.2 := by
  induction l with
  | nil =>
    intro acc hacc
    simpa [PerformanceOptimizer.dedupAux] using hacc
  | cons c rest ih =>
    intro acc hacc
    rw [PerformanceOptimizer.dedupAux]
    by_cases hc : acc.any
        (fun p => decide (p.1 = PerformanceOptimizer.generateComponentHash c))
        = true
    · rw [if_pos hc]
      exact ih acc hacc
    · rw [if_neg hc]
      refine ih _ ?_
      intro p hp
      rcases List.mem_append.mp hp with hp | hp
      · exact hacc p hp
      · rcases List.mem_singleton.mp hp with rfl
        rfl

theorem isPrefixOf_self (l : List Char) : l.isPrefixOf l = true := by
  induction l with
  | nil => rfl
  | cons a as ih => simp [List.isPrefixOf, ih]

theorem listInfix_append_self (p : List Char) :
    ∀ pre : List Char, listInfix p (pre ++ p) = true := by
  intro pre
  induction pre with
  | nil =>
    rw [List.nil_append, listInfix.eq_def, isPrefixOf_self, Bool.true_or]
  | cons a pre ih =>
    rw [List.cons_append, listInfix.eq_def]
    show (p.isPrefixOf (a :: (pre ++ p)) || listInfix p (pre ++ p)) = true
    rw [ih, Bool.or_true]

theorem foldl_addToGroup_same (p : String) :
    ∀ (l : List GeneratedComponent) (m : List GeneratedComponent),
      (∀ c ∈ l, ComponentLibraryManager.extractPattern c = p) →
      l.foldl (fun m' c =>
          ComponentLibraryManager.addToGroup m'
            (ComponentLibraryManager.extractPattern c) c) [(p, m)] =
        [(p, m ++ l)] := by
  intro l
  induction l with
  | nil =>
    intro m _
    simp
  | cons c rest ih =>
    intro m hall
    rw [List.foldl_cons, hall c (List.mem_cons_self c rest)]
    have hstep : ComponentLibraryManager.addToGroup [(p, m)] p c =
        [(p, m ++ [c])] := by
      unfold ComponentLibraryManager.addToGroup
      rw [if_pos (by simp)]
      simp
    rw [hstep,
      ih (m ++ [c]) (fun c' hc' => hall c' (List.mem_cons_of_mem _ hc'))]
    simp

theorem analyzeComponentPatterns_same (c0 : GeneratedComponent)
    (rest : List GeneratedComponent)
    (hall : ∀ c ∈ c0 :: rest, ComponentLibraryManager.extractPattern c =
      ComponentLibraryManager.extractPattern c0) :
    ComponentLibraryManager.analyzeComponentPatterns (c0 :: rest) =
      [(ComponentLibraryManager.extractPattern c0, c0 :: rest)] := by
  unfold ComponentLibraryManager.analyzeComponentPatterns
  rw [List.foldl_cons]
  have h0 : ComponentLibraryManager.addToGroup []
      (ComponentLibraryManager.extractPattern c0) c0 =
      [(ComponentLibraryManager.extractPattern c0, [c0])] := by
    unfold ComponentLibraryManager.addToGroup
    rw [if_neg (by simp)]
    rfl
  rw [h0,
    foldl_addToGroup_same _ rest [c0]
      (fun c hc => hall c (List.mem_cons_of_mem _ hc))]
  rfl

theorem extractReusable_single (p : String) (c0 : GeneratedComponent)
    (rest : List GeneratedComponent) (hlen : 3 ≤ (c0 :: rest).length) :
    ComponentLibraryManager.extractReusableComponents [(p, c0 :: rest)] =
      [ComponentLibraryManager.createBaseComponent c0 p] := by
  unfold ComponentLibraryManager.extractReusableComponents
  rw [List.foldl_cons, List.foldl_nil]
  show (if 3 ≤ (c0 :: rest).length then
      [] ++ [ComponentLibraryManager.createBaseComponent c0 p] else []) =
    [ComponentLibraryManager.createBaseComponent c0 p]
  rw [if_pos hlen, List.nil_append]

theorem findMatching_single (c c0 : GeneratedComponent)
    (hp : ComponentLibraryManager.extractPattern c =
      ComponentLibraryManager.extractPattern c0) :
    ComponentLibraryManager.findMatchingBaseComponent c
      [ComponentLibraryManager.createBaseComponent c0
        (ComponentLibraryManager.extractPattern c0)] =
      some (ComponentLibraryManager.createBaseComponent c0
        (ComponentLibraryManager.extractPattern c0)) := by
  unfold ComponentLibraryManager.findMatchingBaseComponent
  apply List.find?_cons_of_pos
  rw [hp]
  show jsIncludes ("base-" ++ ComponentLibraryManager.extractPattern c0)
    (ComponentLibraryManager.extractPattern c0) = true
  unfold jsIncludes
  rw [String.data_append]
  exact listInfix_append_self _ _

set_option maxRecDepth 4000 in
/-- **C3 counterexample.** `compBB1` and `compBB2` have identical
`jsx + css` text and distinct ids, yet after deduplication of
`[compAa, compBB1, compBB2]` *neither* of them survives: `compAa`'s
different text `"Aa"` collides with `"BB"` under the rolling hash
(both render to `"1mo"`), so the earlier colliding component shadows
both identical ones and the output is `[compAa]` alone. -/
theorem claim_C3_counterexample :
    compBB1.jsx = compBB2.jsx ∧ compBB1.css = compBB2.css ∧
    compBB1 ≠ compBB2 ∧
    PerformanceOptimizer.generateComponentHash compAa =
      PerformanceOptimizer.generateComponentHash compBB1 ∧
    PerformanceOptimizer.deduplicateComponents [compAa, compBB1, compBB2] =
      [compAa] := by
  refine ⟨rfl, rfl, by decide, by decide, by decide⟩

/-- **C3 (amended).** Deduplication keeps exactly one component per
*hash class* of the `jsx + css` text — one survivor for every hash that
occurs, none otherwise — rather than one per identical text (the hash is
not injective, see the counterexample). The reuse half of the claim
holds: when all `N ≥ 3` components share a structural fingerprint, every
member is rewritten with the base import prepended to its `jsx` and the
base `@import` prepended to its `css`, and one synthesized base
component named `Base` + first member's name is appended. -/
theorem claim_C3_optimization_amended :
    (∀ (l : List GeneratedComponent) (h : String),
      (PerformanceOptimizer.deduplicateComponents l).countP
          (fun c =>
            decide (PerformanceOptimizer.generateComponentHash c = h)) =
        if (l.any fun c =>
              decide (PerformanceOptimizer.generateComponentHash c = h)) =
            true
        then 1 else 0) ∧
    (∀ (c0 : GeneratedComponent) (rest : List GeneratedComponent),
      (∀ c ∈ c0 :: rest, ComponentLibraryManager.extractPattern c =
        ComponentLibraryManager.extractPattern c0) →
      3 ≤ (c0 :: rest).length →
      ComponentLibraryManager.optimizeForReusability (c0 :: rest) =
        ((c0 :: rest).map fun c =>
          { c with
            jsx := "import \x7b " ++ ("Base" ++ c0.name) ++ " \x7d from './" ++
              ("Base" ++ c0.name) ++ "';\n\n" ++ c.jsx
            css := "@import './" ++ ("Base" ++ c0.name) ++ ".css';\n\n" ++
              c.css
            metadata :=
              { c.metadata with
                extendsComponent := some ("Base" ++ c0.name) } }) ++
        [{ ComponentLibraryManager.createBaseComponent c0
              (ComponentLibraryManager.extractPattern c0) with
            jsx := ComponentLibraryManager.generateBaseJSX
              (ComponentLibraryManager.createBaseComponent c0
                (ComponentLibraryManager.extractPattern c0))
            css := ComponentLibraryManager.generateBaseCSS
              (ComponentLibraryManager.createBaseComponent c0
                (ComponentLibraryManager.extractPattern c0)) }]) := by
  constructor
  · intro l h
    unfold PerformanceOptimizer.deduplicateComponents
    rw [List.countP_map]
    have hcongr : (PerformanceOptimizer.dedupAux l []).countP
        ((fun c =>
            decide (PerformanceOptimizer.generateComponentHash c = h)) ∘
          (fun x => x.2)) =
        (PerformanceOptimizer.dedupAux l []).countP
          (fun q => decide (q.1 = h)) :=
      List.countP_congr (fun q hq => by
        have hk := dedupAux_inv l [] (by intro p hp; cases hp) q hq
        show decide (PerformanceOptimizer.generateComponentHash q.2 = h) =
            true ↔ decide (q.1 = h) = true
        rw [hk])
    rw [hcongr, dedupAux_countP h l []]
    simp
  · intro c0 rest hall hlen
    unfold ComponentLibraryManager.optimizeForReusability
    dsimp only
    rw [analyzeComponentPatterns_same c0 rest hall,
      extractReusable_single _ c0 rest hlen]
    congr 1
    · unfold ComponentLibraryManager.updateComponentsWithReusablePatterns
      apply List.map_congr_left
      intro c hc
      rw [findMatching_single c c0 (hall c hc)]
      rfl

set_option maxRecDepth 4000 in
/-- Witness for the amended C3: three textually identical components
(hence a shared fingerprint) are rewritten to extend one appended
`BaseBeta` component. -/
theorem claim_C3_optimization_amended_witness :
    ComponentLibraryManager.optimizeForReusability
        [compBB1, compBB2, compBB3] =
      (([compBB1, compBB2, compBB3]).map fun c =>
        { c with
          jsx := "import \x7b " ++ ("Base" ++ compBB1.name) ++ " \x7d from './" ++
            ("Base" ++ compBB1.name) ++ "';\n\n" ++ c.jsx
          css := "@import './" ++ ("Base" ++ compBB1.name) ++ ".css';\n\n" ++
            c.css
          metadata :=
            { c.metadata with
              extendsComponent := some ("Base" ++ compBB1.name) } }) ++
      [{ ComponentLibraryManager.createBaseComponent compBB1
            (ComponentLibraryManager.extractPattern compBB1) with
          jsx := ComponentLibraryManager.generateBaseJSX
            (ComponentLibraryManager.createBaseComponent compBB1
              (ComponentLibraryManager.extractPattern compBB1))
          css := ComponentLibraryManager.generateBaseCSS
            (ComponentLibraryManager.createBaseComponent compBB1
              (ComponentLibraryManager.extractPattern compBB1)) }] :=
  claim_C3_optimization_amended.2 compBB1 [compBB2, compBB3]
    (by decide) (by decide)

/-! ### Responsive-query scanning lemmas (claim C9) -/

theorem hasAtKeyword_at_cons (kw rest : List Char) :
    hasAtKeyword kw ('@' :: rest) =
      (kw.isPrefixOf rest || hasAtKeyword kw rest) := by
  rw [hasAtKeyword]
  simp

theorem hasAtKeyword_cons_ne (kw : List Char) (c : Char) (rest : List Char)
    (h : c ≠ '@') :
    hasAtKeyword kw (c :: rest) = hasAtKeyword kw rest := by
  rw [hasAtKeyword, decide_eq_false h, Bool.false_and, Bool.false_or]

theorem hasAtKeyword_append_no_at (kw : List Char) :
    ∀ (b y : List Char), (∀ c ∈ b, c ≠ '@') →
      hasAtKeyword kw (b ++ y) = hasAtKeyword kw y := by
  intro b
  induction b with
  | nil =>
    intro y _
    rw [List.nil_append]
  | cons c bs ih =>
    intro y hb
    rw [List.cons_append,
      hasAtKeyword_cons_ne kw c _ (hb c (List.mem_cons_self c bs)),
      ih y (fun c' hc' => hb c' (List.mem_cons_of_mem _ hc'))]

theorem hasAtKeyword_no_at (kw : List Char) :
    ∀ b : List Char, (∀ c ∈ b, c ≠ '@') → hasAtKeyword kw b = false := by
  intro b
  induction b with
  | nil =>
    intro _
    rfl
  | cons c bs ih =>
    intro hb
    rw [hasAtKeyword_cons_ne kw c bs (hb c (List.mem_cons_self c bs)),
      ih (fun c' hc' => hb c' (List.mem_cons_of_mem _ hc'))]

theorem isPrefixOf_append_left (p l m : List Char)
    (h : p.isPrefixOf l = true) : p.isPrefixOf (l ++ m) = true := by
  rw [List.isPrefixOf_iff_prefix] at h ⊢
  exact h.trans (List.prefix_append l m)

set_option maxRecDepth 8000 in
/-- **C9 counterexample.** On the default configuration (BEM
architecture; the architect is constructed with every feature flag at
its `true` default, in particular `enableContainerQueries`), the CSS
emitted for a plain frame contains `@container (min-width: 300px)`
*and* `@media (max-width: 768px)` — `generateEnterpriseCSS`
unconditionally appends the fixed media queries after the architectural
CSS, so both kinds of query appear in one component's CSS. -/
theorem claim_C9_counterexample :
    (EnterpriseCodeGenerator.generateEnterpriseCSS cfgReact nodeFixture
          "Card").toOption.map
        (fun css =>
          hasAtKeyword "container (min-width: 300px)".data css.data &&
          hasAtKeyword "media (max-width: 768px)".data css.data) =
      some true := by
  decide

set_option maxRecDepth 4000 in
/-- **C9 (amended).** Inside the architect, `generateResponsiveStyles`
alone is a true two-way selection: with `enableContainerQueries` off it
returns exactly the two fixed 768px/1024px media queries and no
`@container` query; with the flag on it returns exactly the three fixed
300/500/700px container queries and no `@media` query.  (The full
`generateEnterpriseCSS` output nevertheless mixes both kinds, because
the fixed media queries are appended unconditionally afterwards — see
the counterexample.) -/
theorem claim_C9_responsive_selection_amended
    (st : CSSArchitectManagerState) (blockName : String) (node : FigmaNode)
    (hb : ∀ c ∈ blockName.data, c ≠ '@') :
    (st.config.enableContainerQueries = false →
      CSSArchitectManager.generateResponsiveStyles st blockName node =
        CSSArchitectManager.generateMediaQueries blockName node ∧
      hasAtKeyword "media (min-width: 768px)".data
          (CSSArchitectManager.generateResponsiveStyles st blockName
            node).data = true ∧
      hasAtKeyword "media (min-width: 1024px)".data
          (CSSArchitectManager.generateResponsiveStyles st blockName
            node).data = true ∧
      hasAtKeyword "container".data
          (CSSArchitectManager.generateResponsiveStyles st blockName
            node).data = false) ∧
    (st.config.enableContainerQueries = true →
      CSSArchitectManager.generateResponsiveStyles st blockName node =
        CSSArchitectManager.generateContainerQueries node ∧
      hasAtKeyword "container (min-width: 300px)".data
          (CSSArchitectManager.generateResponsiveStyles st blockName
            node).data = true ∧
      hasAtKeyword "container (min-width: 500px)".data
          (CSSArchitectManager.generateResponsiveStyles st blockName
            node).data = true ∧
      hasAtKeyword "container (min-width: 700px)".data
          (CSSArchitectManager.generateResponsiveStyles st blockName
            node).data = true ∧
      hasAtKeyword "media".data
          (CSSArchitectManager.generateResponsiveStyles st blockName
            node).data = false) := by
  have hA1 : ("\n/* Responsive Styles */\n@media (min-width: 768px) \x7b\n  .".data
      : List Char) =
      "\n/* Responsive Styles */\n".data ++
        '@' :: "media (min-width: 768px) \x7b\n  .".data := by rfl
  have hA2 : ((" \x7b\n    /* Tablet styles */\n  \x7d\n\x7d\n\n@media (min-width: 1024px) \x7b\n  .".data)
      : List Char) =
      " \x7b\n    /* Tablet styles */\n  \x7d\n\x7d\n\n".data ++
        '@' :: "media (min-width: 1024px) \x7b\n  .".data := by rfl
  constructor
  · intro hflag
    have hsel : CSSArchitectManager.generateResponsiveStyles st blockName
        node = CSSArchitectManager.generateMediaQueries blockName node := by
      unfold CSSArchitectManager.generateResponsiveStyles
      rw [hflag]
      rfl
    have hS : (CSSArchitectManager.generateMediaQueries blockName node).data =
        "\n/* Responsive Styles */\n".data ++
          ('@' :: ("media (min-width: 768px) \x7b\n  .".data ++
            (blockName.data ++
              (" \x7b\n    /* Tablet styles */\n  \x7d\n\x7d\n\n".data ++
                ('@' :: ("media (min-width: 1024px) \x7b\n  .".data ++
                  (blockName.data ++
                    " \x7b\n    /* Desktop styles */\n  \x7d\n\x7d\n".data))))))) := by
      unfold CSSArchitectManager.generateMediaQueries
      simp only [String.data_append, hA1, hA2, List.cons_append,
        List.append_assoc]
      rfl
    refine ⟨hsel, ?_, ?_, ?_⟩
    · rw [hsel, hS, hasAtKeyword_append_no_at _ _ _ (by decide),
        hasAtKeyword_at_cons,
        isPrefixOf_append_left _ _ _ (by decide), Bool.true_or]
    · rw [hsel, hS, hasAtKeyword_append_no_at _ _ _ (by decide),
        hasAtKeyword_at_cons]
      have htail : hasAtKeyword "media (min-width: 1024px)".data
          ("media (min-width: 768px) \x7b\n  .".data ++
            (blockName.data ++
              (" \x7b\n    /* Tablet styles */\n  \x7d\n\x7d\n\n".data ++
                ('@' :: ("media (min-width: 1024px) \x7b\n  .".data ++
                  (blockName.data ++
                    " \x7b\n    /* Desktop styles */\n  \x7d\n\x7d\n".data)))))) =
          true := by
        rw [hasAtKeyword_append_no_at _ _ _ (by decide),
          hasAtKeyword_append_no_at _ _ _ hb,
          hasAtKeyword_append_no_at _ _ _ (by decide),
          hasAtKeyword_at_cons,
          isPrefixOf_append_left _ _ _ (by decide), Bool.true_or]
      rw [htail, Bool.or_true]
    · have hp1 : ∀ X : List Char, ("container".data).isPrefixOf
          ("media (min-width: 768px) \x7b\n  .".data ++ X) = false :=
        fun _ => rfl
      have hp2 : ∀ X : List Char, ("container".data).isPrefixOf
          ("media (min-width: 1024px) \x7b\n  .".data ++ X) = false :=
        fun _ => rfl
      rw [hsel, hS, hasAtKeyword_append_no_at _ _ _ (by decide),
        hasAtKeyword_at_cons, hp1, Bool.false_or,
        hasAtKeyword_append_no_at _ _ _ (by decide),
        hasAtKeyword_append_no_at _ _ _ hb,
        hasAtKeyword_append_no_at _ _ _ (by decide),
        hasAtKeyword_at_cons, hp2, Bool.false_or,
        hasAtKeyword_append_no_at _ _ _ (by decide),
        hasAtKeyword_append_no_at _ _ _ hb]
      exact hasAtKeyword_no_at _ _ (by decide)
  · intro hflag
    have hsel : CSSArchitectManager.generateResponsiveStyles st blockName
        node = CSSArchitectManager.generateContainerQueries node := by
      unfold CSSArchitectManager.generateResponsiveStyles
      rw [hflag]
      rfl
    exact ⟨hsel, by rw [hsel]; rfl, by rw [hsel]; rfl, by rw [hsel]; rfl,
      by rw [hsel]; rfl⟩

/-- Witness for the amended C9 at a concrete media-branch architect
state and block name. -/
theorem claim_C9_responsive_selection_amended_witness :
    (stMediaFixture.config.enableContainerQueries = false →
      CSSArchitectManager.generateResponsiveStyles stMediaFixture "card"
          nodeFixture =
        CSSArchitectManager.generateMediaQueries "card" nodeFixture ∧
      hasAtKeyword "media (min-width: 768px)".data
          (CSSArchitectManager.generateResponsiveStyles stMediaFixture "card"
            nodeFixture).data = true ∧
      hasAtKeyword "media (min-width: 1024px)".data
          (CSSArchitectManager.generateResponsiveStyles stMediaFixture "card"
            nodeFixture).data = true ∧
      hasAtKeyword "container".data
          (CSSArchitectManager.generateResponsiveStyles stMediaFixture "card"
            nodeFixture).data = false) ∧
    (stMediaFixture.config.enableContainerQueries = true →
      CSSArchitectManager.generateResponsiveStyles stMediaFixture "card"
          nodeFixture =
        CSSArchitectManager.generateContainerQueries nodeFixture ∧
      hasAtKeyword "container (min-width: 300px)".data
          (CSSArchitectManager.generateResponsiveStyles stMediaFixture "card"
            nodeFixture).data = true ∧
      hasAtKeyword "container (min-width: 500px)".data
          (CSSArchitectManager.generateResponsiveStyles stMediaFixture "card"
            nodeFixture).data = true ∧
      hasAtKeyword "container (min-width: 700px)".data
          (CSSArchitectManager.generateResponsiveStyles stMediaFixture "card"
            nodeFixture).data = true ∧
      hasAtKeyword "media".data
          (CSSArchitectManager.generateResponsiveStyles stMediaFixture "card"
            nodeFixture).data = false) :=
  claim_C9_responsive_selection_amended stMediaFixture "card" nodeFixture
    (by decide)

end Compass
